/-
  Verification of the mobile-apps-fcm-push request pipeline.

  This file shallowly embeds the JavaScript source of the push-notification
  service (payload transformers, rate-limit engine, orchestrator and error
  classifier) into Lean 4 and proves, or refutes, the frozen claims about it.

  Modelling conventions:
  * JavaScript values are modelled by `JsVal`; objects and arrays live in an
    explicit heap (`Store`) and are referred to by `Ref`s, so that aliasing and
    in-place mutation behave exactly as in JavaScript.
  * JavaScript numbers are modelled as rationals plus a NaN element (`JsNum`);
    double rounding is not modelled, none of the verified code depends on it.
  * Statements run in the monad `M` (`Store → Except JsErr (α × Store)`); a
    thrown `TypeError` (property access on `undefined`/`null`) is `Except.error`.
  * Async/await code is modelled by explicit state passing; the outcome of each
    network call (FCM `messaging.send`) is supplied as an oracle parameter.
-/
import Mathlib

/-! ## JavaScript numbers -/

/-- A JavaScript number: a rational value or `NaN`.  (The source never relies
on infinities, signed zero or double rounding.) -/
inductive JsNum where
  | nan : JsNum
  | q : ℚ → JsNum
deriving DecidableEq, Repr

namespace JsNum

/-- JS truthiness of a number: `0` and `NaN` are falsy. -/
def truthy : JsNum → Bool
  | nan => false
  | q v => v ≠ 0

/-- The comparison `n > 0` (false for `NaN`). -/
def gtZero : JsNum → Bool
  | nan => false
  | q v => 0 < v

end JsNum

/-- Digits of a string prefix: consume leading decimal digits. -/
def takeDigits : List Char → (List Char × List Char)
  | [] => ([], [])
  | c :: cs =>
    if c.isDigit then
      let (ds, rest) := takeDigits cs
      (c :: ds, rest)
    else ([], c :: cs)

/-- Numeric value of a list of decimal digits. -/
def digitsVal (ds : List Char) : ℕ :=
  ds.foldl (fun acc c => acc * 10 + (c.toNat - '0'.toNat)) 0

/-- Leading-whitespace removal (the JS spec strips whitespace before parsing). -/
def dropWs (cs : List Char) : List Char :=
  cs.dropWhile (fun c => c = ' ' ∨ c = '\t' ∨ c = '\n' ∨ c = '\r')

/-- Optional sign: returns (sign, rest); `+`/`-` consumed. -/
def takeSign : List Char → (Bool × List Char)
  | '-' :: cs => (true, cs)
  | '+' :: cs => (false, cs)
  | cs => (false, cs)

/-- `parseFloat` on a string: longest valid decimal-literal prefix
(sign, digits, optional fraction, optional exponent); `NaN` if no digits.
Matches the JS semantics for ordinary decimal notation. -/
def parseFloatStr (s : String) : JsNum :=
  let cs := dropWs s.toList
  let (neg, cs) := takeSign cs
  let (intDs, cs) := takeDigits cs
  let (fracDs, cs) :=
    match cs with
    | '.' :: cs' => takeDigits cs'
    | _ => ([], cs)
  if intDs.isEmpty ∧ fracDs.isEmpty then JsNum.nan
  else
    let mant : ℚ := (digitsVal intDs : ℚ) + (digitsVal fracDs : ℚ) / (10 : ℚ) ^ fracDs.length
    let expPart : Option ℤ :=
      match cs with
      | 'e' :: cs' | 'E' :: cs' =>
        let (eneg, cs'') := takeSign cs'
        let (eDs, _) := takeDigits cs''
        if eDs.isEmpty then none
        else some (if eneg then -(digitsVal eDs : ℤ) else (digitsVal eDs : ℤ))
      | _ => none
    let v := mant * (10 : ℚ) ^ (expPart.getD 0)
    JsNum.q (if neg then -v else v)

/-- `parseInt(s, 10)`: sign plus leading decimal digits; `NaN` if none. -/
def parseIntStr (s : String) : JsNum :=
  let cs := dropWs s.toList
  let (neg, cs) := takeSign cs
  let (ds, _) := takeDigits cs
  if ds.isEmpty then JsNum.nan
  else JsNum.q (if neg then -(digitsVal ds : ℚ) else (digitsVal ds : ℚ))

/-- Decimal rendering of a rational whose denominator divides a power of ten
(every number produced by the embedded code is of this form); fuel-bounded
fraction expansion. -/
def decimalFrac (num den : ℕ) : Nat → List Char
  | 0 => []
  | fuel + 1 =>
    if num = 0 then []
    else
      let d := num * 10 / den
      let r := num * 10 % den
      Char.ofNat ('0'.toNat + d) :: decimalFrac r den fuel

/-- String form of a `JsNum` (integer or terminating-decimal notation; the
embedded source only stringifies integers). -/
def numToString : JsNum → String
  | JsNum.nan => "NaN"
  | JsNum.q v =>
    let sign := if v < 0 then "-" else ""
    let av := |v|
    let ip := av.num.toNat / av.den
    let fr := av.num.toNat % av.den
    if fr = 0 then sign ++ toString ip
    else sign ++ toString ip ++ "." ++ String.mk (decimalFrac fr av.den 30)

/-! ## JavaScript values, heap and the statement monad -/

/-- A reference into the object heap. -/
abbrev Ref := Nat

/-- A JavaScript value: a primitive or a reference to a heap object/array. -/
inductive JsVal where
  | undef : JsVal
  | null : JsVal
  | bool : Bool → JsVal
  | num : JsNum → JsVal
  | str : String → JsVal
  | ref : Ref → JsVal
deriving DecidableEq, Repr

/-- A heap cell: a plain object (insertion-ordered fields) or an array. -/
inductive JsObj where
  | obj : List (String × JsVal) → JsObj
  | arr : List JsVal → JsObj
deriving DecidableEq, Repr

/-- The object heap; `Ref`s index this list, allocation appends. -/
abbrev Store := List JsObj

/-- A thrown JavaScript error (`TypeError` from bad property access). -/
structure JsErr where
  message : String
deriving DecidableEq, Repr

/-- The statement monad: state-passing over the heap, with JS exceptions. -/
def M (α : Type) : Type := Store → Except JsErr (α × Store)

instance : Monad M where
  pure a := fun s => Except.ok (a, s)
  bind m f := fun s =>
    match m s with
    | Except.ok (a, s') => f a s'
    | Except.error e => Except.error e

/-- Throw a `TypeError`. -/
def jsThrow {α : Type} (msg : String) : M α := fun _ => Except.error ⟨msg⟩

/-- Allocate a fresh heap object, returning its reference. -/
def alloc (o : JsObj) : M Ref := fun s => Except.ok (s.length, s ++ [o])

/-- Read a heap cell. -/
def readObj (r : Ref) : M JsObj := fun s =>
  match s[r]? with
  | some o => Except.ok (o, s)
  | none => Except.error ⟨"dangling reference"⟩

/-- Replace a heap cell. -/
def writeObj (r : Ref) (o : JsObj) : M Unit := fun s =>
  Except.ok ((), s.set r o)

/-- Field update on an insertion-ordered field list: overwrite in place if the
key exists, otherwise append (JS object key-order semantics). -/
def setFieldList (fs : List (String × JsVal)) (k : String) (v : JsVal) :
    List (String × JsVal) :=
  if fs.any (fun p => p.1 = k) then
    fs.map (fun p => if p.1 = k then (k, v) else p)
  else fs ++ [(k, v)]

/-- Property read, `a[k]`: missing fields read as `undefined`; reads on
`undefined`/`null` throw `TypeError`; reads on other primitives yield
`undefined` (primitive boxing, no such property is used by the source). -/
def getProp (v : JsVal) (k : String) : M JsVal :=
  match v with
  | JsVal.ref r => do
    match (← readObj r) with
    | JsObj.obj fs => pure (((fs.find? (fun p => p.1 = k)).map Prod.snd).getD JsVal.undef)
    | JsObj.arr es =>
      if k = "length" then pure (JsVal.num (JsNum.q es.length))
      else pure JsVal.undef
  | JsVal.undef => jsThrow ("Cannot read properties of undefined (reading " ++ k ++ ")")
  | JsVal.null => jsThrow ("Cannot read properties of null (reading " ++ k ++ ")")
  | _ => pure JsVal.undef

/-- Property write, `a[k] = v`: throws on `undefined`/`null`; silently ignored
on other primitives (non-strict mode; never exercised by the source). -/
def setProp (tgt : JsVal) (k : String) (v : JsVal) : M Unit :=
  match tgt with
  | JsVal.ref r => do
    match (← readObj r) with
    | JsObj.obj fs => writeObj r (JsObj.obj (setFieldList fs k v))
    | JsObj.arr es => writeObj r (JsObj.arr es)
  | JsVal.undef => jsThrow ("Cannot set properties of undefined (setting " ++ k ++ ")")
  | JsVal.null => jsThrow ("Cannot set properties of null (setting " ++ k ++ ")")
  | _ => pure ()

/-- Property deletion, `delete a[k]`. -/
def delProp (tgt : JsVal) (k : String) : M Unit :=
  match tgt with
  | JsVal.ref r => do
    match (← readObj r) with
    | JsObj.obj fs => writeObj r (JsObj.obj (fs.filter (fun p => p.1 ≠ k)))
    | JsObj.arr es => writeObj r (JsObj.arr es)
  | JsVal.undef => jsThrow ("Cannot convert undefined to object")
  | JsVal.null => jsThrow ("Cannot convert null to object")
  | _ => pure ()

/-- Own-field list of an object value (used for `for..in` / `Object.assign`). -/
def ownFields (v : JsVal) : M (List (String × JsVal)) :=
  match v with
  | JsVal.ref r => do
    match (← readObj r) with
    | JsObj.obj fs => pure fs
    | JsObj.arr _ => pure []
  | _ => pure []

/-- `Object.hasOwn(o, k)`. -/
def hasOwn (v : JsVal) (k : String) : M Bool :=
  match v with
  | JsVal.ref r => do
    match (← readObj r) with
    | JsObj.obj fs => pure (fs.any (fun p => p.1 = k))
    | JsObj.arr _ => pure false
  | _ => pure false

/-- `Array.isArray`. -/
def isArrayVal (v : JsVal) : M Bool :=
  match v with
  | JsVal.ref r => do
    match (← readObj r) with
    | JsObj.arr _ => pure true
    | JsObj.obj _ => pure false
  | _ => pure false

/-- Array elements of a value (empty for non-arrays). -/
def arrayElems (v : JsVal) : M (List JsVal) :=
  match v with
  | JsVal.ref r => do
    match (← readObj r) with
    | JsObj.arr es => pure es
    | JsObj.obj _ => pure []
  | _ => pure []

/-- JS truthiness of a value. -/
def truthy : JsVal → Bool
  | JsVal.undef => false
  | JsVal.null => false
  | JsVal.bool b => b
  | JsVal.num n => n.truthy
  | JsVal.str s => s ≠ ""
  | JsVal.ref _ => true

/-- `typeof v` (as the source uses it: distinguishes string/object/number). -/
def typeofStr : JsVal → String
  | JsVal.undef => "undefined"
  | JsVal.null => "object"
  | JsVal.bool _ => "boolean"
  | JsVal.num _ => "number"
  | JsVal.str _ => "string"
  | JsVal.ref _ => "object"

/-- Strict equality `===`: primitives by value (`NaN ≠ NaN`), objects by
reference identity. -/
def strictEq : JsVal → JsVal → Bool
  | JsVal.undef, JsVal.undef => true
  | JsVal.null, JsVal.null => true
  | JsVal.bool a, JsVal.bool b => a = b
  | JsVal.num JsNum.nan, JsVal.num _ => false
  | JsVal.num _, JsVal.num JsNum.nan => false
  | JsVal.num a, JsVal.num b => a = b
  | JsVal.str a, JsVal.str b => a = b
  | JsVal.ref a, JsVal.ref b => a = b
  | _, _ => false

/-- `parseFloat(v)`: numbers pass through, strings are parsed; other values
stringify to something unparseable (objects are not given a custom
`toString` anywhere in the source), hence `NaN`. -/
def parseFloatVal : JsVal → JsNum
  | JsVal.num n => n
  | JsVal.str s => parseFloatStr s
  | _ => JsNum.nan

/-- `parseInt(v, 10)`: numbers are re-parsed from their decimal form (which
truncates toward zero), strings parsed; everything else is `NaN`. -/
def parseIntVal : JsVal → JsNum
  | JsVal.num JsNum.nan => JsNum.nan
  | JsVal.num (JsNum.q v) => JsNum.q (v.num / (v.den : ℤ) : ℤ)
  | JsVal.str s => parseIntStr s
  | _ => JsNum.nan

/-- Does the whole character list form a decimal literal? (`Number`, unlike
`parseFloat`, rejects trailing garbage.) -/
def fullNumericLiteral (cs : List Char) : Bool :=
  let (_, cs) := takeSign cs
  let (intDs, cs) := takeDigits cs
  let (fracDs, cs) :=
    match cs with
    | '.' :: cs' => takeDigits cs'
    | _ => ([], cs)
  if intDs.isEmpty ∧ fracDs.isEmpty then false
  else
    match cs with
    | [] => true
    | 'e' :: cs' | 'E' :: cs' =>
      let (_, cs'') := takeSign cs'
      let (eDs, rest) := takeDigits cs''
      ¬ eDs.isEmpty ∧ rest.isEmpty
    | _ => false

/-- `Number(v)`: `Number("") = 0`, full-string parse otherwise (trailing
garbage gives `NaN`, unlike `parseFloat`); booleans and `null` coerce
numerically; objects (no custom `valueOf` in the source) give `NaN`. -/
def numberVal : JsVal → JsNum
  | JsVal.num n => n
  | JsVal.str s =>
    let cs := dropWs s.toList
    if cs.isEmpty then JsNum.q 0
    else if fullNumericLiteral cs then parseFloatStr s
    else JsNum.nan
  | JsVal.bool b => JsNum.q (if b then 1 else 0)
  | JsVal.null => JsNum.q 0
  | JsVal.undef => JsNum.nan
  | JsVal.ref _ => JsNum.nan

/-- `s.toLowerCase()` (ASCII; the source only compares ASCII literals).
List-based so that it reduces definitionally. -/
def toLowerStr (s : String) : String := String.mk (s.toList.map Char.toLower)

/-- Substring containment (JS `String.prototype.includes`). -/
def strIncludes (hay needle : String) : Bool :=
  (hay.toList.tails).any (fun t => needle.toList.isPrefixOf t)

/-- `s.indexOf(c) === -1` test specialised to single characters as the token
check uses it: does the string contain the character? -/
def strHasChar (s : String) (c : Char) : Bool := s.toList.contains c

/-- Chained property read `v.k1.k2...`. -/
def getPath (v : JsVal) : List String → M JsVal
  | [] => pure v
  | k :: ks => do getPath (← getProp v k) ks

/-- `base.path... .k = val`. -/
def setAt (base : JsVal) (path : List String) (k : String) (val : JsVal) : M Unit := do
  setProp (← getPath base path) k val

/-- `delete base.path... .k`. -/
def delAt (base : JsVal) (path : List String) (k : String) : M Unit := do
  delProp (← getPath base path) k

/-- `v.indexOf(needle) > -1` / `=== -1` support: only strings (and arrays)
have `indexOf`; anything else throws, as in JS. -/
def indexOfHas (v : JsVal) (needle : String) : M Bool :=
  match v with
  | JsVal.str s => pure (strIncludes s needle)
  | JsVal.ref r => do
    match (← readObj r) with
    | JsObj.arr es => pure (es.any (fun e => strictEq e (JsVal.str needle)))
    | JsObj.obj _ => jsThrow "v.indexOf is not a function"
  | _ => jsThrow "v.indexOf is not a function"

/-! ## Payload transformer: `ios-v1` (src/functions/ios.js, `createPayload`) -/

namespace iosV1

/-- The final block of `createPayload` (src/functions/ios.js): sound
normalization, badge coercion and `apns-push-type` selection, verbatim.
Factored out so the sound-normalization claims can be proved about the very
code `createPayload` runs. -/
def finishPayload (updateRateLimits0 : Bool) (payload : JsVal) : M (Bool × JsVal) := do
  let mut updateRateLimits := updateRateLimits0
  let snd0 ← getPath payload ["apns", "payload", "aps", "sound"]
  if truthy snd0 then
    if typeofStr snd0 = "string" then
      match snd0 with
      | JsVal.str s =>
        if toLowerStr s = "none" then
          delAt payload ["apns", "payload", "aps"] "sound"
      | _ => pure ()
    else if typeofStr snd0 = "object" then
      let vol ← getProp snd0 "volume"
      if truthy vol then
        setProp snd0 "volume" (JsVal.num (parseFloatVal vol))
      let crit ← getProp snd0 "critical"
      if truthy crit then
        setProp snd0 "critical" (JsVal.num (parseIntVal crit))
      let crit' ← getProp snd0 "critical"
      let vol' ← getProp snd0 "volume"
      if truthy crit' ∧ (numberVal vol').gtZero then
        updateRateLimits := false
  -- if (payload.apns.payload.aps.badge) badge = Number(badge)
  let badge ← getPath payload ["apns", "payload", "aps", "badge"]
  if truthy badge then
    setAt payload ["apns", "payload", "aps"] "badge" (JsVal.num (numberVal badge))
  -- apns-push-type header selection.
  let ca ← getPath payload ["apns", "payload", "aps", "contentAvailable"]
  if truthy ca then
    setAt payload ["apns", "headers"] "apns-push-type" (JsVal.str "background")
  else
    setAt payload ["apns", "headers"] "apns-push-type" (JsVal.str "alert")
  pure (updateRateLimits, payload)

/-- Shallow embedding of `createPayload` from `src/functions/ios.js`, statement
by statement.  Returns `(updateRateLimits, payload)`; the payload is a heap
reference, mirroring the JS object graph (including any aliasing of
`req.body.data` subtrees). -/
def createPayload (req : JsVal) : M (Bool × JsVal) := do
  let body ← getProp req "body"
  -- let payload = { notification: { body: req.body.message },
  --   apns: { headers: {}, payload: { aps: { alert: { body: req.body.message },
  --   sound: 'default' } } }, fcm_options: { analytics_label: "iosV1Notification" } };
  let msg ← getProp body "message"
  let notif ← alloc (JsObj.obj [("body", msg)])
  let headers ← alloc (JsObj.obj [])
  let alert ← alloc (JsObj.obj [("body", msg)])
  let aps ← alloc (JsObj.obj [("alert", JsVal.ref alert), ("sound", JsVal.str "default")])
  let apnsPayload ← alloc (JsObj.obj [("aps", JsVal.ref aps)])
  let apns ← alloc (JsObj.obj
    [("headers", JsVal.ref headers), ("payload", JsVal.ref apnsPayload)])
  let fcmOpts ← alloc (JsObj.obj [("analytics_label", JsVal.str "iosV1Notification")])
  let payload := JsVal.ref (← alloc (JsObj.obj
    [("notification", JsVal.ref notif), ("apns", JsVal.ref apns),
     ("fcm_options", JsVal.ref fcmOpts)]))
  -- if (req.body.title) { ... }
  let title ← getProp body "title"
  if truthy title then
    setAt payload ["notification"] "title" title
    setAt payload ["apns", "payload", "aps", "alert"] "title" title
  -- if (req.body.data) { for key of ['apns','data'] ...; apns_headers rename }
  let dataV ← getProp body "data"
  if truthy dataV then
    for key in ["apns", "data"] do
      let v ← getProp dataV key
      if truthy v then
        setProp payload key v
    let ah ← getProp dataV "apns_headers"
    if truthy ah then
      setAt payload ["apns"] "headers" ah
  let mut updateRateLimits := true
  -- if (req.body.registration_info.app_id.indexOf('io.robbie.HomeAssistant') > -1)
  let regInfo ← getProp body "registration_info"
  let appId ← getProp regInfo "app_id"
  if (← indexOfHas appId "io.robbie.HomeAssistant") then
    if strictEq msg (JsVal.str "request_location_update") ∨
        strictEq msg (JsVal.str "request_location_updates") then
      setProp payload "notification" (JsVal.ref (← alloc (JsObj.obj [])))
      setAt payload ["apns", "payload"] "aps" (JsVal.ref (← alloc (JsObj.obj [])))
      setAt payload ["apns", "payload", "aps"] "contentAvailable" (JsVal.bool true)
      let ha ← alloc (JsObj.obj [("command", JsVal.str "request_location_update")])
      setAt payload ["apns", "payload"] "homeassistant" (JsVal.ref ha)
      updateRateLimits := false
    else if strictEq msg (JsVal.str "clear_badge") then
      setProp payload "notification" (JsVal.ref (← alloc (JsObj.obj [])))
      setAt payload ["apns", "payload"] "aps" (JsVal.ref (← alloc (JsObj.obj [])))
      setAt payload ["apns", "payload", "aps"] "contentAvailable" (JsVal.bool true)
      setAt payload ["apns", "payload", "aps"] "badge" (JsVal.num (JsNum.q 0))
      let ha ← alloc (JsObj.obj [("command", JsVal.str "clear_badge")])
      setAt payload ["apns", "payload"] "homeassistant" (JsVal.ref ha)
      updateRateLimits := false
    else
      if truthy dataV then
        let sub ← getProp dataV "subtitle"
        if truthy sub then
          setAt payload ["apns", "payload", "aps", "alert"] "subtitle" sub
        let push ← getProp dataV "push"
        if truthy push then
          for kv in (← ownFields push) do
            let v ← getProp push kv.1
            setAt payload ["apns", "payload", "aps"] kv.1 v
        let snd ← getProp dataV "sound"
        if truthy snd then
          setAt payload ["apns", "payload", "aps"] "sound" snd
        else
          let push' ← getProp dataV "push"
          if truthy push' then
            let ps ← getProp push' "sound"
            if truthy ps then
              setAt payload ["apns", "payload", "aps"] "sound" ps
        let ent ← getProp dataV "entity_id"
        if truthy ent then
          setAt payload ["apns", "payload"] "entity_id" ent
        let ad ← getProp dataV "action_data"
        if truthy ad then
          setAt payload ["apns", "payload"] "homeassistant" ad
        let att ← getProp dataV "attachment"
        if truthy att then
          setAt payload ["apns", "payload"] "attachment" att
        let url ← getProp dataV "url"
        if truthy url then
          setAt payload ["apns", "payload"] "url" url
        let sc ← getProp dataV "shortcut"
        if truthy sc then
          setAt payload ["apns", "payload"] "shortcut" sc
        let po ← getProp dataV "presentation_options"
        if truthy po then
          setAt payload ["apns", "payload"] "presentation_options" po
      setAt payload ["apns", "payload", "aps"] "mutableContent" (JsVal.bool true)
      if strictEq msg (JsVal.str "delete_alert") then
        updateRateLimits := false
        delAt payload ["notification"] "body"
        delAt payload ["apns", "payload", "aps", "alert"] "title"
        delAt payload ["apns", "payload", "aps", "alert"] "subtitle"
        delAt payload ["apns", "payload", "aps", "alert"] "body"
        delAt payload ["apns", "payload", "aps"] "sound"
  -- Final sound normalization, badge coercion, apns-push-type selection.
  finishPayload updateRateLimits payload

end iosV1

/-- `path.parse(s).name`: the last path segment without its final extension
(a leading dot alone is not an extension), as Node's `path.parse`. -/
def pathParseName (s : String) : String :=
  let base := ((s.toList.reverse.takeWhile (fun c => c ≠ '/')).reverse)
  let rev := base.reverse
  let extRev := rev.takeWhile (fun c => c ≠ '.')
  if extRev.length = rev.length then String.mk base
  else
    let nameRev := rev.drop (extRev.length + 1)
    if nameRev.isEmpty then String.mk base
    else String.mk nameRev.reverse

/-- `v.toUpperCase()`: only strings have it; otherwise a `TypeError`. -/
def toUpperVal (v : JsVal) : M JsVal :=
  match v with
  | JsVal.str s => pure (JsVal.str (String.mk (s.toList.map Char.toUpper)))
  | _ => jsThrow "v.toUpperCase is not a function"

/-- `s.startsWith(p)` (list-based so that it reduces definitionally). -/
def strStartsWith (s p : String) : Bool := p.toList.isPrefixOf s.toList

/-- `v.startsWith(p)` for strings. -/
def startsWithVal (v : JsVal) (p : String) : Bool :=
  match v with
  | JsVal.str s => strStartsWith s p
  | _ => false

/-! ## Payload transformer: `legacy` (functions/legacy.js, `createPayload`) -/

namespace legacy

/-- The `addCommand` closure of the legacy `createPayload`: clears the
notification, replaces `aps`, sets `contentAvailable` and the
`homeassistant.command`, and copies `data.push.badge` when given.  (The
closure also sets `updateRateLimits = false`; call sites in `createPayload`
mirror that on the Lean side.) -/
def addCommand (payload body : JsVal) (command : String) : M Unit := do
  setProp payload "notification" (JsVal.ref (← alloc (JsObj.obj [])))
  setAt payload ["apns", "payload"] "aps" (JsVal.ref (← alloc (JsObj.obj [])))
  setAt payload ["apns", "payload", "aps"] "contentAvailable" (JsVal.bool true)
  let ha ← alloc (JsObj.obj [("command", JsVal.str command)])
  setAt payload ["apns", "payload"] "homeassistant" (JsVal.ref ha)
  let dataV ← getProp body "data"
  if truthy dataV then
    let push ← getProp dataV "push"
    if truthy push then
      let badge ← getProp push "badge"
      if truthy badge then
        setAt payload ["apns", "payload", "aps"] "badge" badge

/-- The `addAttachment` closure: returns whether it took effect (at call
sites this drives `needsCategory` / `needsMutableContent`). -/
def addAttachment (payload url : JsVal) (contentType : String) : M Bool := do
  if ¬ truthy url then
    pure false
  else
    let att ← getPath payload ["apns", "payload", "attachment"]
    if ¬ truthy att then
      setAt payload ["apns", "payload"] "attachment" (JsVal.ref (← alloc (JsObj.obj [])))
    let att' ← getPath payload ["apns", "payload", "attachment"]
    let ct ← getProp att' "content-type"
    if ¬ truthy ct then
      setProp att' "content-type" (JsVal.str contentType)
    let u ← getProp att' "url"
    if ¬ truthy u then
      setProp att' "url" url
    pure true

/-- The final block of the legacy `createPayload`: sound normalization (the
source destructures `const { sound } = payload.apns.payload.aps`, an alias of
the same heap object), badge coercion and `apns-push-type` selection,
verbatim. -/
def finishPayload (updateRateLimits0 : Bool) (payload : JsVal) : M (Bool × JsVal) := do
  let mut updateRateLimits := updateRateLimits0
  let snd0 ← getPath payload ["apns", "payload", "aps", "sound"]
  if truthy snd0 then
    if typeofStr snd0 = "string" then
      match snd0 with
      | JsVal.str s =>
        if toLowerStr s = "none" then
          delAt payload ["apns", "payload", "aps"] "sound"
      | _ => pure ()
    else if typeofStr snd0 = "object" then
      let vol ← getProp snd0 "volume"
      if truthy vol then
        setProp snd0 "volume" (JsVal.num (parseFloatVal vol))
      let crit ← getProp snd0 "critical"
      if truthy crit then
        setProp snd0 "critical" (JsVal.num (parseIntVal crit))
      let crit' ← getProp snd0 "critical"
      let vol' ← getProp snd0 "volume"
      if truthy crit' ∧ (numberVal vol').gtZero then
        updateRateLimits := false
  let badge ← getPath payload ["apns", "payload", "aps", "badge"]
  if truthy badge then
    setAt payload ["apns", "payload", "aps"] "badge" (JsVal.num (numberVal badge))
  let ca ← getPath payload ["apns", "payload", "aps", "contentAvailable"]
  if truthy ca then
    setAt payload ["apns", "headers"] "apns-push-type" (JsVal.str "background")
  else
    setAt payload ["apns", "headers"] "apns-push-type" (JsVal.str "alert")
  pure (updateRateLimits, payload)

/-- Shallow embedding of `createPayload` from `functions/legacy.js`, statement
by statement. -/
def createPayload (req : JsVal) : M (Bool × JsVal) := do
  let body ← getProp req "body"
  let msg ← getProp body "message"
  let notif ← alloc (JsObj.obj [("body", msg)])
  let android ← alloc (JsObj.obj
    [("ttl", JsVal.num (JsNum.q 0)), ("priority", JsVal.str "HIGH")])
  let headers ← alloc (JsObj.obj [])
  let alert ← alloc (JsObj.obj [("body", msg)])
  let aps ← alloc (JsObj.obj [("alert", JsVal.ref alert), ("sound", JsVal.str "default")])
  let apnsPayload ← alloc (JsObj.obj [("aps", JsVal.ref aps)])
  let apns ← alloc (JsObj.obj
    [("headers", JsVal.ref headers), ("payload", JsVal.ref apnsPayload)])
  let fcmOpts ← alloc (JsObj.obj [("analytics_label", JsVal.str "legacyNotification")])
  let payload := JsVal.ref (← alloc (JsObj.obj
    [("notification", JsVal.ref notif), ("android", JsVal.ref android),
     ("apns", JsVal.ref apns), ("fcm_options", JsVal.ref fcmOpts)]))
  let title ← getProp body "title"
  if truthy title then
    setAt payload ["notification"] "title" title
    setAt payload ["apns", "payload", "aps", "alert"] "title" title
  let dataV ← getProp body "data"
  if truthy dataV then
    for key in ["android", "apns", "data", "webpush"] do
      let v ← getProp dataV key
      if truthy v then
        setProp payload key v
    let ah ← getProp dataV "apns_headers"
    if truthy ah then
      setAt payload ["apns"] "headers" ah
  let mut updateRateLimits := true
  let regInfo ← getProp body "registration_info"
  let webhookId ← getProp regInfo "webhook_id"
  if truthy webhookId then
    let ap ← getPath payload ["apns", "payload"]
    if ¬ truthy ap then
      setAt payload ["apns"] "payload" (JsVal.ref (← alloc (JsObj.obj [])))
    setAt payload ["apns", "payload"] "webhook_id" webhookId
  let appId ← getProp regInfo "app_id"
  if (← indexOfHas appId "io.robbie.HomeAssistant") then
    if strictEq msg (JsVal.str "request_location_update") ∨
        strictEq msg (JsVal.str "request_location_updates") then
      addCommand payload body "request_location_update"
      updateRateLimits := false
    else if strictEq msg (JsVal.str "clear_badge") then
      setProp payload "notification" (JsVal.ref (← alloc (JsObj.obj [])))
      setAt payload ["apns", "payload"] "aps" (JsVal.ref (← alloc (JsObj.obj [])))
      setAt payload ["apns", "payload", "aps"] "badge" (JsVal.num (JsNum.q 0))
      updateRateLimits := false
    else if strictEq msg (JsVal.str "clear_notification") then
      addCommand payload body "clear_notification"
      updateRateLimits := false
      let tag ← (do
        if truthy dataV then getProp dataV "tag" else pure JsVal.undef)
      if truthy dataV ∧ truthy tag then
        setAt payload ["apns", "payload", "homeassistant"] "tag" tag
      let cid ← getPath payload ["apns", "headers", "apns-collapse-id"]
      if truthy cid then
        setAt payload ["apns", "payload", "homeassistant"] "collapseId" cid
      delAt payload ["apns", "headers"] "apns-collapse-id"
    else if strictEq msg (JsVal.str "update_complications") then
      addCommand payload body "update_complications"
      updateRateLimits := false
    else if strictEq msg (JsVal.str "update_widgets") then
      addCommand payload body "update_widgets"
      updateRateLimits := false
    else
      let mut needsCategory := false
      let mut needsMutableContent := false
      if truthy dataV then
        let sub ← getProp dataV "subtitle"
        if truthy sub then
          setAt payload ["apns", "payload", "aps", "alert"] "subtitle" sub
        let push ← getProp dataV "push"
        if truthy push then
          -- Object.assign(payload.apns.payload.aps, req.body.data.push)
          let tgt ← getPath payload ["apns", "payload", "aps"]
          for kv in (← ownFields push) do
            let v ← getProp push kv.1
            setProp tgt kv.1 v
        let acts ← getProp dataV "actions"
        if truthy acts then
          setAt payload ["apns", "payload"] "actions" acts
          needsCategory := true
        let snd ← getProp dataV "sound"
        if truthy snd then
          setAt payload ["apns", "payload", "aps"] "sound" snd
        else
          let push' ← getProp dataV "push"
          if truthy push' then
            let ps ← getProp push' "sound"
            if truthy ps then
              setAt payload ["apns", "payload", "aps"] "sound" ps
        let osv ← getProp regInfo "os_version"
        if typeofStr osv = "string" ∧ startsWithVal osv "10.15" then
          let snd1 ← getPath payload ["apns", "payload", "aps", "sound"]
          if typeofStr snd1 = "string" then
            match snd1 with
            | JsVal.str s =>
              setAt payload ["apns", "payload", "aps"] "sound"
                (JsVal.str (pathParseName s))
            | _ => pure ()
          else if typeofStr snd1 = "object" then
            let nm ← getProp snd1 "name"
            match nm with
            | JsVal.str s => setProp snd1 "name" (JsVal.str (pathParseName s))
            | _ => pure ()
        let ent ← getProp dataV "entity_id"
        if truthy ent then
          setAt payload ["apns", "payload"] "entity_id" ent
          needsCategory := true
          needsMutableContent := true
        let ad ← getProp dataV "action_data"
        if truthy ad then
          setAt payload ["apns", "payload"] "homeassistant" ad
          needsCategory := true
        let att ← getProp dataV "attachment"
        if truthy att then
          setAt payload ["apns", "payload"] "attachment" att
          needsCategory := true
          needsMutableContent := true
        let video ← getProp dataV "video"
        if (← addAttachment payload video "mpeg4") then
          needsCategory := true
          needsMutableContent := true
        let image ← getProp dataV "image"
        if (← addAttachment payload image "jpeg") then
          needsCategory := true
          needsMutableContent := true
        let audio ← getProp dataV "audio"
        if (← addAttachment payload audio "waveformaudio") then
          needsCategory := true
          needsMutableContent := true
        let url ← getProp dataV "url"
        if truthy url then
          setAt payload ["apns", "payload"] "url" url
        let sc ← getProp dataV "shortcut"
        if truthy sc then
          setAt payload ["apns", "payload"] "shortcut" sc
        let po ← getProp dataV "presentation_options"
        if truthy po then
          setAt payload ["apns", "payload"] "presentation_options" po
        let tag ← getProp dataV "tag"
        if typeofStr tag = "string" then
          setAt payload ["apns", "headers"] "apns-collapse-id" tag
        let grp ← getProp dataV "group"
        if typeofStr grp = "string" then
          setAt payload ["apns", "payload", "aps"] "thread-id" grp
      let aps0 ← getPath payload ["apns", "payload", "aps"]
      if ¬ truthy aps0 then
        setAt payload ["apns", "payload"] "aps" (JsVal.ref (← alloc (JsObj.obj [])))
      let cat ← getPath payload ["apns", "payload", "aps", "category"]
      if needsCategory ∧ ¬ truthy cat then
        setAt payload ["apns", "payload", "aps"] "category" (JsVal.str "DYNAMIC")
      else
        let cat' ← getPath payload ["apns", "payload", "aps", "category"]
        if truthy cat' then
          setAt payload ["apns", "payload", "aps"] "category" (← toUpperVal cat')
      if needsMutableContent then
        setAt payload ["apns", "payload", "aps"] "mutableContent" (JsVal.bool true)
      if strictEq msg (JsVal.str "delete_alert") then
        updateRateLimits := false
        delAt payload ["notification"] "body"
        delAt payload ["apns", "payload", "aps", "alert"] "title"
        delAt payload ["apns", "payload", "aps", "alert"] "subtitle"
        delAt payload ["apns", "payload", "aps", "alert"] "body"
        delAt payload ["apns", "payload", "aps"] "sound"
      if strictEq msg (JsVal.str "test_push_source") then
        setAt payload ["apns", "payload", "aps", "alert"] "title" msg
        setAt payload ["apns", "payload", "aps", "alert"] "body" (JsVal.str "apns-fcm")
  -- Final sound normalization (the destructuring `const { sound } = ...aps`
  -- aliases the sound object; reads and writes go through the same heap
  -- cell, which the shared-shape tail below reproduces), badge coercion,
  -- apns-push-type selection.
  finishPayload updateRateLimits payload

end legacy

/-! ## Payload transformer: `android-v1` (functions/android.js, `createPayload`) -/

namespace androidV1

/-- The fixed allow-list of Android notification keys stringified into
`payload.data` (`androidNotificationKeys` in the source). -/
def androidNotificationKeys : List String :=
  ["icon", "color", "sound", "tag", "clickAction", "bodyLocKey", "bodyLocArgs",
   "titleLocKey", "titleLocArgs", "channel", "ticker", "sticky", "eventTime",
   "localOnly", "notificationPriority", "defaultSound", "defaultVibrateTimings",
   "defaultLightSettings", "vibrateTimings", "visibility", "notificationCount",
   "lightSettings", "image", "timeout", "importance", "subject", "group",
   "icon_url", "ledColor", "vibrationPattern", "persistent", "chronometer",
   "when", "when_relative", "alert_once", "intent_class_name",
   "notification_icon", "ble_advertise", "ble_transmit", "video",
   "high_accuracy_update_interval", "package_name", "tts_text", "media_stream",
   "command", "intent_package_name", "intent_action", "intent_extras",
   "media_command", "media_package_name", "intent_uri", "intent_type",
   "ble_uuid", "ble_major", "ble_minor", "confirmation", "app_lock_enabled",
   "app_lock_timeout", "home_bypass_enabled", "car_ui", "ble_measured_power",
   "progress", "progress_max", "progress_indeterminate"]

/-- The fixed list of command-like messages that disable rate-limit updates
(`androidMessagesToIgnore` in the source). -/
def androidMessagesToIgnore : List String :=
  ["request_location_update", "clear_notification", "remove_channel",
   "command_dnd", "command_ringer_mode", "command_broadcast_intent",
   "command_volume_level", "command_screen_on", "command_bluetooth",
   "command_high_accuracy_mode", "command_activity", "command_app_lock",
   "command_webview", "command_media", "command_update_sensors",
   "command_ble_transmitter", "command_persistent_connection",
   "command_stop_tts", "command_auto_screen_brightness",
   "command_screen_brightness_level", "command_screen_off_timeout",
   "command_flashlight"]

/-- `String(v)` as used on the allow-listed keys: primitive stringification
(objects have no custom `toString` in any request the service accepts, so the
generic `[object Object]` form is used; array join is elided as no claim
touches it). -/
def jsStringOf (v : JsVal) : String :=
  match v with
  | JsVal.undef => "undefined"
  | JsVal.null => "null"
  | JsVal.bool b => if b then "true" else "false"
  | JsVal.num n => numToString n
  | JsVal.str s => s
  | JsVal.ref _ => "[object Object]"

/-- The final block of the android-v1 `createPayload`: reflect `message`
(also deciding `updateRateLimits` against `androidMessagesToIgnore`),
`title` and `registration_info.webhook_id` into `payload.data`, verbatim. -/
def finishData (body payload : JsVal) (updateRateLimits0 : Bool) :
    M (Bool × JsVal) := do
  let mut updateRateLimits := updateRateLimits0
  let msg ← getProp body "message"
  if truthy msg then
    setAt payload ["data"] "message" msg
    if androidMessagesToIgnore.any (fun c => strictEq msg (JsVal.str c)) then
      updateRateLimits := false
  let title ← getProp body "title"
  if truthy title then
    setAt payload ["data"] "title" title
  let regInfo ← getProp body "registration_info"
  let webhookId ← getProp regInfo "webhook_id"
  if truthy webhookId then
    setAt payload ["data"] "webhook_id" webhookId
  pure (updateRateLimits, payload)

/-- Shallow embedding of `createPayload` from `functions/android.js`
(android-v1), statement by statement. -/
def createPayload (req : JsVal) : M (Bool × JsVal) := do
  let body ← getProp req "body"
  let android ← alloc (JsObj.obj [])
  let dataObj ← alloc (JsObj.obj [])
  let fcmOpts ← alloc (JsObj.obj [("analytics_label", JsVal.str "androidV1Notification")])
  let payload := JsVal.ref (← alloc (JsObj.obj
    [("android", JsVal.ref android), ("data", JsVal.ref dataObj),
     ("fcm_options", JsVal.ref fcmOpts)]))
  let mut updateRateLimits := true
  let dataV ← getProp body "data"
  if truthy dataV then
    let acts ← getProp dataV "actions"
    if (← isArrayVal acts) then
      let elems ← arrayElems acts
      for ie in elems.enum do
        let action := ie.2
        let actionIndex := ie.1 + 1
        let a ← getProp action "action"
        if truthy a then
          setAt payload ["data"] ("action_" ++ toString actionIndex ++ "_key") a
        let t ← getProp action "title"
        if truthy t then
          setAt payload ["data"] ("action_" ++ toString actionIndex ++ "_title") t
        let u ← getProp action "uri"
        if truthy u then
          setAt payload ["data"] ("action_" ++ toString actionIndex ++ "_uri") u
        let b ← getProp action "behavior"
        if truthy b then
          setAt payload ["data"] ("action_" ++ toString actionIndex ++ "_behavior") b
    let ttl ← getProp dataV "ttl"
    if truthy ttl then
      setAt payload ["android"] "ttl" ttl
    let prio ← getProp dataV "priority"
    if truthy prio then
      setAt payload ["android"] "priority" prio
    for key in androidNotificationKeys do
      if (← hasOwn dataV key) then
        let v ← getProp dataV key
        setAt payload ["data"] key (JsVal.str (jsStringOf v))
  -- message / command list / title / webhook_id reflection.
  finishData body payload updateRateLimits

end androidV1

/-! ## Rate-limit engine (src/functions/rate-limiter.js) -/

/-- The persisted per-(token,day) record.  (`expiresAt`, a pure end-of-day
timestamp handled by the backends' TTL machinery, carries no claim-relevant
information and is kept out of the counter record.) -/
structure RateLimitData where
  attemptsCount : ℕ
  deliveredCount : ℕ
  errorCount : ℕ
  totalCount : ℕ
deriving DecidableEq, Repr

/-- The zero-valued record used when no document exists. -/
def emptyRateLimitData : RateLimitData := ⟨0, 0, 0, 0⟩

/-- A calendar date as the JS code feeds it to `new Date(y, m, d)`;
`resetsAt = new Date(y, m, d + 1)` is kept un-normalized (JS would normalize
a month overflow; no claim depends on that). -/
structure DateParts where
  year : ℤ
  month : ℤ
  day : ℤ
deriving DecidableEq, Repr

/-- `new Date(d.getFullYear(), d.getMonth(), d.getDate() + 1)`. -/
def nextMidnight (d : DateParts) : DateParts := ⟨d.year, d.month, d.day + 1⟩

/-- The derived, user-facing rate-limit summary. -/
structure RateLimits where
  attempts : ℕ
  successful : ℕ
  errors : ℕ
  total : ℕ
  maximum : ℕ
  remaining : ℤ
  resetsAt : DateParts
deriving DecidableEq, Repr

/-- The derived status returned by `checkRateLimit` / `recordAttempt`. -/
structure RateLimitStatus where
  isRateLimited : Bool
  shouldSendRateLimitNotification : Bool
  rateLimits : RateLimits
deriving DecidableEq, Repr

namespace FirestoreRateLimiter

/-- `_getRateLimitsObject`: negative remainders are clamped to zero
(`if (remainingCount < 0) remainingCount = 0`). -/
def getRateLimitsObject (maxN : ℕ) (today : DateParts) (doc : RateLimitData) :
    RateLimits :=
  let remainingCount : ℤ := (maxN : ℤ) - (doc.deliveredCount : ℤ)
  { attempts := doc.attemptsCount
    successful := doc.deliveredCount
    errors := doc.errorCount
    total := doc.totalCount
    maximum := maxN
    remaining := if remainingCount < 0 then 0 else remainingCount
    resetsAt := nextMidnight today }

/-- The status derivation repeated in `checkRateLimit`/`recordAttempt`:
`isRateLimited = deliveredCount >= max`,
`shouldSendRateLimitNotification = deliveredCount === max`. -/
def statusFor (maxN : ℕ) (today : DateParts) (docData : RateLimitData) :
    RateLimitStatus :=
  { isRateLimited := maxN ≤ docData.deliveredCount
    shouldSendRateLimitNotification := docData.deliveredCount = maxN
    rateLimits := getRateLimitsObject maxN today docData }

/-- `checkRateLimit`: read-only; zero-valued record when the doc is absent. -/
def checkRateLimit (maxN : ℕ) (today : DateParts) (store : Option RateLimitData) :
    RateLimitStatus :=
  statusFor maxN today (store.getD emptyRateLimitData)

/-- `recordAttempt`: transactionally create-or-increment `attemptsCount`;
returns the derived status of the post-state and the post-state itself. -/
def recordAttempt (maxN : ℕ) (today : DateParts) (store : Option RateLimitData) :
    RateLimitStatus × RateLimitData :=
  let result :=
    match store with
    | some d => { d with attemptsCount := d.attemptsCount + 1 }
    | none => { emptyRateLimitData with attemptsCount := 1 }
  (statusFor maxN today result, result)

/-- `recordSuccess`: increment `deliveredCount` and `totalCount`; on a missing
doc, create `{0,1,0,1}` ("should not happen if recordAttempt was called
first, but handle gracefully"). -/
def recordSuccess (maxN : ℕ) (today : DateParts) (store : Option RateLimitData) :
    RateLimits × RateLimitData :=
  let result :=
    match store with
    | some d => { d with deliveredCount := d.deliveredCount + 1,
                         totalCount := d.totalCount + 1 }
    | none => { emptyRateLimitData with deliveredCount := 1, totalCount := 1 }
  (getRateLimitsObject maxN today result, result)

/-- `recordError`: increment `errorCount` and `totalCount`; on a missing doc,
create `{0,0,1,1}`. -/
def recordError (maxN : ℕ) (today : DateParts) (store : Option RateLimitData) :
    RateLimits × RateLimitData :=
  let result :=
    match store with
    | some d => { d with errorCount := d.errorCount + 1,
                         totalCount := d.totalCount + 1 }
    | none => { emptyRateLimitData with errorCount := 1, totalCount := 1 }
  (getRateLimitsObject maxN today result, result)

end FirestoreRateLimiter

/-! ## Rate-limit engine, Valkey backend
(src/functions/rate-limiter/valkey-rate-limiter.js) -/

/-- A Valkey hash for one `rate_limit:<token>:<day>` key: ordered field list.
Field values are the integers the string values parse to (every write goes
through `HINCRBY`, so fields are always canonical integer strings). -/
abbrev ValkeyHash := List (String × ℤ)

/-- `HINCRBY key field incr`: create-at-zero then increment. -/
def hincrBy (h : ValkeyHash) (f : String) (incr : ℤ) : ValkeyHash :=
  if h.any (fun p => p.1 = f) then
    h.map (fun p => if p.1 = f then (f, p.2 + incr) else p)
  else h ++ [(f, incr)]

/-- `parseRateLimitData(parseHgetallResponse(...))`: missing fields parse as
`'0'`.  (`parseInt` of a canonical integer string; negative values cannot
arise from the increments, `toNat` is exact on this data.) -/
def parseRateLimitData (h : ValkeyHash) : RateLimitData :=
  let fld := fun f => ((h.find? (fun p => p.1 = f)).map Prod.snd).getD 0
  { attemptsCount := (fld "attemptsCount").toNat
    deliveredCount := (fld "deliveredCount").toNat
    errorCount := (fld "errorCount").toNat
    totalCount := (fld "totalCount").toNat }

namespace ValkeyRateLimiter

/-- `checkRateLimit`: `HGETALL`, parse, derive (same derivation as the
Firestore backend). -/
def checkRateLimit (maxN : ℕ) (today : DateParts) (h : ValkeyHash) :
    RateLimitStatus :=
  FirestoreRateLimiter.statusFor maxN today (parseRateLimitData h)

/-- `recordAttempt`: atomic `HINCRBY attemptsCount 1; EXPIRE; HGETALL`. -/
def recordAttempt (maxN : ℕ) (today : DateParts) (h : ValkeyHash) :
    RateLimitStatus × ValkeyHash :=
  let h' := hincrBy h "attemptsCount" 1
  (FirestoreRateLimiter.statusFor maxN today (parseRateLimitData h'), h')

/-- `recordSuccess`: atomic `HINCRBY deliveredCount 1; HINCRBY totalCount 1;
EXPIRE; HGETALL`. -/
def recordSuccess (maxN : ℕ) (today : DateParts) (h : ValkeyHash) :
    RateLimits × ValkeyHash :=
  let h' := hincrBy (hincrBy h "deliveredCount" 1) "totalCount" 1
  (FirestoreRateLimiter.getRateLimitsObject maxN today (parseRateLimitData h'), h')

/-- `recordError`: atomic `HINCRBY errorCount 1; HINCRBY totalCount 1;
EXPIRE; HGETALL`. -/
def recordError (maxN : ℕ) (today : DateParts) (h : ValkeyHash) :
    RateLimits × ValkeyHash :=
  let h' := hincrBy (hincrBy h "errorCount" 1) "totalCount" 1
  (FirestoreRateLimiter.getRateLimitsObject maxN today (parseRateLimitData h'), h')

end ValkeyRateLimiter

/-! ## Legacy summary derivation (src/functions/index.js, `getRateLimitsObject`) -/

namespace legacyIndex

/-- The legacy monolith's constant. -/
def MAX_NOTIFICATIONS_PER_DAY : ℕ := 150

/-- `getRateLimitsObject` of the legacy `index.js`: note that only the exact
value `-1` is clamped (`if (remainingCount === -1) remainingCount = 0`). -/
def getRateLimitsObject (today : DateParts) (doc : RateLimitData) : RateLimits :=
  let remainingCount : ℤ :=
    (MAX_NOTIFICATIONS_PER_DAY : ℤ) - (doc.deliveredCount : ℤ)
  { attempts := doc.attemptsCount
    successful := doc.deliveredCount
    errors := doc.errorCount
    total := doc.totalCount
    maximum := MAX_NOTIFICATIONS_PER_DAY
    remaining := if remainingCount = -1 then 0 else remainingCount
    resetsAt := nextMidnight today }

end legacyIndex

/-! ## Error classifier (src/functions/android.js, `handleError`) -/

/-- A JS `Error` as the classifier consumes it (`code` is the optional
Firebase error code, e.g. `"messaging/invalid-argument"`). -/
structure JsError where
  code : Option String
  message : String
deriving DecidableEq, Repr

/-- `String.prototype.replace(pat, repl)` with a string pattern: replace the
first occurrence only. -/
def replaceFirstStr (s pat repl : String) : String :=
  go [] s.toList
where
  go (pre rest : List Char) : String :=
    if pat.toList.isPrefixOf rest then
      String.mk (pre ++ repl.toList ++ rest.drop pat.length)
    else
      match rest with
      | [] => s
      | c :: cs => go (pre ++ [c]) cs

/-- A classified HTTP response body. -/
inductive RespBody where
  | errMessage : String → RespBody
  | rateLimited : (errorType message target : String) → RateLimits → RespBody
  | classified : (errorType : String) → (errorCode : Option String) →
      (errorStep message : String) → RespBody
  | success : (messageId : String) → (sentPayload : JsVal) → (target : String) →
      RateLimits → RespBody
deriving DecidableEq, Repr

/-- An HTTP response as emitted by `res.status(...).send(...)`. -/
structure HttpResponse where
  status : ℕ
  body : RespBody
deriving DecidableEq, Repr

/-- Result of `handleError`: the response sent (none in non-exiting mode) and
whether a structured error log entry was written (`reportError`). -/
structure HandleErrorResult where
  response : Option HttpResponse
  logged : Bool
deriving DecidableEq, Repr

/-- The `reportError`-then-respond fallthrough of `handleError`. -/
def handleErrorFallback (step : String) (e : JsError) (shouldExit : Bool) :
    HandleErrorResult :=
  -- reportError writes a structured error log entry before responding.
  if ¬ shouldExit then ⟨none, true⟩
  else ⟨some ⟨500, RespBody.classified "InternalError" none step e.message⟩, true⟩

/-- Shallow embedding of `handleError` (src/functions/android.js).  The
undefined-error and non-`Error` wrappers at the top only normalize the
argument into an `Error`; the classifier proper starts at the
`incomingError.code` test. -/
def handleError (step : String) (e : JsError) (shouldExit : Bool) :
    HandleErrorResult :=
  match e.code with
  | some code =>
    if strStartsWith code "messaging/" then
      let errorCode := replaceFirstStr code "messaging/" ""
      if errorCode = "invalid-registration-token" ∨
          errorCode = "registration-token-not-registered" then
        if ¬ shouldExit then ⟨none, false⟩
        else ⟨some ⟨500, RespBody.classified "InvalidToken" (some errorCode) step
          e.message⟩, false⟩
      else if errorCode = "invalid-argument" ∨ errorCode = "payload-too-large" ∨
          (e.message ≠ "" ∧
            (strIncludes (toLowerStr e.message) "message is too big" ∨
             strIncludes (toLowerStr e.message) "payload too large")) then
        if ¬ shouldExit then ⟨none, false⟩
        else ⟨some ⟨500, RespBody.classified "PayloadTooLarge" (some errorCode) step
          e.message⟩, false⟩
      else handleErrorFallback step e shouldExit
    else handleErrorFallback step e shouldExit
  | none => handleErrorFallback step e shouldExit

/-! ## Orchestrator (src/functions/android.js, `handleRequest`) -/

/-- Gateway oracle: the outcome `messaging.send` would produce for the main
notification payload and for the one-shot rate-limit notification. -/
structure Gateway where
  sendMain : Except JsError String
  sendRL : Except JsError String
deriving Repr

/-- Observable gateway calls made while handling one request. -/
inductive GEvent where
  | gatewaySend : JsVal → GEvent
  | gatewayRLSend : GEvent
deriving DecidableEq, Repr

/-- The 429 message constant. -/
def rateLimitedMessage : String :=
  "The given target has reached the maximum number of notifications allowed per day. Please try again later."

/-- The admission / send / accounting / response tail of `handleRequest`
(src/functions/android.js lines 120-198), which performs no heap operation:
read the pre-attempt status, optionally record the attempt, fire the one-shot
when `shouldSendRateLimitNotification` (best-effort: a failure runs
`handleError` in non-exiting mode), answer 429 when `isRateLimited`, otherwise
invoke the gateway, account the outcome and choose the response. -/
def orchestrate (maxN : ℕ) (today : DateParts) (gw : Gateway)
    (updateRateLimits : Bool) (payload : JsVal) (tok : String)
    (doc : Option RateLimitData) :
    HttpResponse × Option RateLimitData × List GEvent :=
  let rateLimitInfo := FirestoreRateLimiter.checkRateLimit maxN today doc
  let admission : Option RateLimitData × List GEvent × Option HttpResponse :=
    if updateRateLimits then
      let (attemptInfo, attemptDoc) := FirestoreRateLimiter.recordAttempt maxN today doc
      let events : List GEvent :=
        if attemptInfo.shouldSendRateLimitNotification then
          -- `await sendRateLimitedNotification(req, token)`; on failure,
          -- `handleError(..., false)` only logs and returns control.
          let _ :=
            match gw.sendRL with
            | Except.ok _ => true
            | Except.error e => (handleError "sendRateLimitNotification" e false).logged
          [GEvent.gatewayRLSend]
        else []
      if attemptInfo.isRateLimited then
        (some attemptDoc, events,
         some ⟨429, RespBody.rateLimited "RateLimited" rateLimitedMessage tok
           attemptInfo.rateLimits⟩)
      else (some attemptDoc, events, none)
    else (doc, [], none)
  match admission with
  | (docCur, events, some resp) => (resp, docCur, events)
  | (docCur, events, none) =>
    let events := events ++ [GEvent.gatewaySend payload]
    match gw.sendMain with
    | Except.ok messageId =>
      if updateRateLimits then
        let (rl, d') := FirestoreRateLimiter.recordSuccess maxN today docCur
        (⟨201, RespBody.success messageId payload tok rl⟩, some d', events)
      else
        (⟨201, RespBody.success messageId payload tok rateLimitInfo.rateLimits⟩,
         docCur, events)
    | Except.error e =>
      let docF :=
        if updateRateLimits then
          some (FirestoreRateLimiter.recordError maxN today docCur).2
        else docCur
      ((handleError "sendNotification" e true).response.getD
        ⟨500, RespBody.classified "InternalError" none "sendNotification" e.message⟩,
       docF, events)

/-- Shallow embedding of `handleRequest` (src/functions/android.js),
parameterized over the payload transformer and the gateway oracle.  The
rate-limit store for the single `(token, today)` bucket in scope is the
`doc` argument; store backend failures (whose `catch` produces
`getRateLimitDoc` errors) are not exercised by any claim and are not
modelled.  Returns the response, the post-state of the store, and the trace
of gateway calls; a thrown JS exception (e.g. from the payload handler)
escapes as `Except.error` — no response is emitted on that path. -/
def handleRequest (maxN : ℕ) (today : DateParts) (gw : Gateway)
    (payloadHandler : JsVal → M (Bool × JsVal)) (req : JsVal)
    (doc : Option RateLimitData) :
    M (HttpResponse × Option RateLimitData × List GEvent) := do
  let body ← getProp req "body"
  let token ← getProp body "push_token"
  if ¬ truthy token then
    return (⟨403, RespBody.errMessage "You did not send a token!"⟩, doc, [])
  match token with
  | JsVal.str tok => do
    if ¬ strHasChar tok ':' then
      return (⟨403, RespBody.errMessage "That is not a valid FCM token"⟩, doc, [])
    let (updateRateLimits, payload) ← payloadHandler req
    setProp payload "token" token
    return orchestrate maxN today gw updateRateLimits payload tok doc
  | _ => jsThrow "token.indexOf is not a function"

/-! ## Running programs on concrete heaps: projections and fixtures -/

/-- Run a program, keeping only the result value. -/
def outOf {α : Type} (m : M α) (s : Store) : Option α :=
  match m s with
  | Except.ok (a, _) => some a
  | Except.error _ => none

/-- Run a program, keeping only the final heap (empty heap on a throw — every
theorem using this also pins down the non-throwing result). -/
def storeAfter {α : Type} (m : M α) (s : Store) : Store :=
  match m s with
  | Except.ok (_, s') => s'
  | Except.error _ => []

/-- Read one field of one heap cell directly (`none` = field absent). -/
def getFieldS (s : Store) (r : Ref) (k : String) : Option JsVal :=
  match s[r]? with
  | some (JsObj.obj fs) => (fs.find? (fun p => p.1 = k)).map Prod.snd
  | _ => none

/-- Follow a path of object fields through a heap, starting at a value. -/
def getPathS (s : Store) (v : JsVal) : List String → Option JsVal
  | [] => some v
  | k :: ks =>
    match v with
    | JsVal.ref r =>
      match getFieldS s r k with
      | some v' => getPathS s v' ks
      | none =>
        -- absent field reads as `undefined`; deeper reads fail
        if ks.isEmpty then some JsVal.undef else none
    | _ => none

/-- Payload-path lookup after running a transformer: the value at `path`
below the returned payload in the final heap. -/
def finalPath (m : M (Bool × JsVal)) (s : Store) (path : List String) : Option JsVal :=
  match m s with
  | Except.ok ((_, p), s') => getPathS s' p path
  | Except.error _ => none

/-- `updateRateLimits` flag returned by a transformer run. -/
def finalFlag (m : M (Bool × JsVal)) (s : Store) : Option Bool :=
  match m s with
  | Except.ok ((b, _), _) => some b
  | Except.error _ => none

/-- A fixed date for runs whose claims do not involve the clock. -/
def d0 : DateParts := ⟨2026, 9, 11⟩

/-- A gateway for which both sends succeed. -/
def okGateway : Gateway :=
  ⟨Except.ok "projects/p/messages/1", Except.ok "projects/p/messages/2"⟩

/-- Android-companion request `{push_token: "a:1", message: "hello",
registration_info: {app_id: "io.homeassistant.companion.android"}}`:
cells 0 = registration_info, 1 = body, 2 = req. -/
def androidReqStore : Store :=
  [JsObj.obj [("app_id", JsVal.str "io.homeassistant.companion.android")],
   JsObj.obj [("push_token", JsVal.str "a:1"), ("message", JsVal.str "hello"),
              ("registration_info", JsVal.ref 0)],
   JsObj.obj [("body", JsVal.ref 1)]]

def androidReq : JsVal := JsVal.ref 2

/-- One orchestrated request on a fresh request heap against the shared
per-(token,day) store state. -/
def runAndroidRequest (maxN : ℕ) (gw : Gateway) (doc : Option RateLimitData) :
    Except JsErr ((HttpResponse × Option RateLimitData × List GEvent) × Store) :=
  handleRequest maxN d0 gw androidV1.createPayload androidReq doc androidReqStore

/-- A serialized sequence of such requests: returns the response statuses, the
final store state, and how many one-shot rate-limit notifications were sent
across the whole sequence. -/
def runAndroidSeq (maxN : ℕ) : List Gateway → Option RateLimitData →
    List (Option ℕ) × Option RateLimitData × ℕ
  | [], doc => ([], doc, 0)
  | gw :: rest, doc =>
    match runAndroidRequest maxN gw doc with
    | Except.ok ((resp, doc', evs), _) =>
      let (ss, docF, n) := runAndroidSeq maxN rest doc'
      (some resp.status :: ss, docF, evs.count GEvent.gatewayRLSend + n)
    | Except.error _ =>
      let (ss, docF, n) := runAndroidSeq maxN rest doc
      (none :: ss, docF, n)

/-- iOS request whose `data.apns` is an empty object (no `payload.aps`, no
`headers`): `{push_token: "a:1", message: "hello",
registration_info: {app_id: "io.robbie.HomeAssistant"}, data: {apns: {}}}`.
Cells: 0 = registration_info, 1 = apns, 2 = data, 3 = body, 4 = req. -/
def iosCrashStore : Store :=
  [JsObj.obj [("app_id", JsVal.str "io.robbie.HomeAssistant")],
   JsObj.obj [],
   JsObj.obj [("apns", JsVal.ref 1)],
   JsObj.obj [("push_token", JsVal.str "a:1"), ("message", JsVal.str "hello"),
              ("registration_info", JsVal.ref 0), ("data", JsVal.ref 2)],
   JsObj.obj [("body", JsVal.ref 3)]]

def iosCrashReq : JsVal := JsVal.ref 4

/-- `{push_token: "a:1", message: "clear_badge",
registration_info: {app_id: "io.robbie.HomeAssistant"}}`.
Cells: 0 = registration_info, 1 = body, 2 = req. -/
def clearBadgeStore : Store :=
  [JsObj.obj [("app_id", JsVal.str "io.robbie.HomeAssistant")],
   JsObj.obj [("push_token", JsVal.str "a:1"), ("message", JsVal.str "clear_badge"),
              ("registration_info", JsVal.ref 0)],
   JsObj.obj [("body", JsVal.ref 1)]]

def clearBadgeReq : JsVal := JsVal.ref 2

/-- Companion-app request with no `data` and a parametric message:
`{push_token: "a:1", message: msg,
registration_info: {app_id: "io.homeassistant.companion.android"}}`.
Cells: 0 = registration_info, 1 = body, 2 = req. -/
def iosNoDataStore (msg : String) : Store :=
  [JsObj.obj [("app_id", JsVal.str "io.homeassistant.companion.android")],
   JsObj.obj [("push_token", JsVal.str "a:1"), ("message", JsVal.str msg),
              ("registration_info", JsVal.ref 0)],
   JsObj.obj [("body", JsVal.ref 1)]]

def iosNoDataReq : JsVal := JsVal.ref 2

/-- Companion-app request supplying a full `data.apns` subtree
(`headers: {}`, `payload: {aps: {}}`) and a parametric message.
Cells: 0 = registration_info, 1 = apns.headers, 2 = apns.payload.aps,
3 = apns.payload, 4 = apns, 5 = data, 6 = body, 7 = req. -/
def iosApnsStore (msg : String) : Store :=
  [JsObj.obj [("app_id", JsVal.str "io.homeassistant.companion.android")],
   JsObj.obj [],
   JsObj.obj [],
   JsObj.obj [("aps", JsVal.ref 2)],
   JsObj.obj [("headers", JsVal.ref 1), ("payload", JsVal.ref 3)],
   JsObj.obj [("apns", JsVal.ref 4)],
   JsObj.obj [("push_token", JsVal.str "a:1"), ("message", JsVal.str msg),
              ("registration_info", JsVal.ref 0), ("data", JsVal.ref 5)],
   JsObj.obj [("body", JsVal.ref 6)]]

def iosApnsReq : JsVal := JsVal.ref 7

/-- Request whose `data.apns.payload.aps.sound` is a parametric value `x`
(app is not the Home Assistant iOS app, so the override branch is skipped and
`x` flows untouched into the final normalization).
Cells: 0 = registration_info, 1 = headers, 2 = aps (sound: x), 3 = payload,
4 = apns, 5 = data, 6 = body, 7 = req. -/
def soundStore (x : JsVal) : Store :=
  [JsObj.obj [("app_id", JsVal.str "io.homeassistant.companion.android")],
   JsObj.obj [],
   JsObj.obj [("sound", x)],
   JsObj.obj [("aps", JsVal.ref 2)],
   JsObj.obj [("headers", JsVal.ref 1), ("payload", JsVal.ref 3)],
   JsObj.obj [("apns", JsVal.ref 4)],
   JsObj.obj [("push_token", JsVal.str "a:1"), ("message", JsVal.str "hello"),
              ("registration_info", JsVal.ref 0), ("data", JsVal.ref 5)],
   JsObj.obj [("body", JsVal.ref 6)]]

def soundReq : JsVal := JsVal.ref 7

/-- Like `soundStore`, with an object-valued sound
`{volume: v, critical: c}` at cell 2 and `aps` at cell 3.
Cells: 0 = registration_info, 1 = headers, 2 = sound object, 3 = aps,
4 = payload, 5 = apns, 6 = data, 7 = body, 8 = req. -/
def soundObjStore (v c : JsVal) : Store :=
  [JsObj.obj [("app_id", JsVal.str "io.homeassistant.companion.android")],
   JsObj.obj [],
   JsObj.obj [("volume", v), ("critical", c)],
   JsObj.obj [("sound", JsVal.ref 2)],
   JsObj.obj [("aps", JsVal.ref 3)],
   JsObj.obj [("headers", JsVal.ref 1), ("payload", JsVal.ref 4)],
   JsObj.obj [("apns", JsVal.ref 5)],
   JsObj.obj [("push_token", JsVal.str "a:1"), ("message", JsVal.str "hello"),
              ("registration_info", JsVal.ref 0), ("data", JsVal.ref 6)],
   JsObj.obj [("body", JsVal.ref 7)]]

def soundObjReq : JsVal := JsVal.ref 8

/-! ## Symbolic-execution toolkit -/

theorem run_bind {α β : Type} (m : M α) (f : α → M β) (s : Store) :
    (m >>= f) s = match m s with
      | Except.ok (a, s') => f a s'
      | Except.error e => Except.error e := rfl

theorem run_pure {α : Type} (a : α) (s : Store) :
    (pure a : M α) s = Except.ok (a, s) := rfl

theorem truthy_ref (r : Ref) : truthy (JsVal.ref r) = true := rfl

theorem truthy_undef : truthy JsVal.undef = false := rfl

theorem truthy_null : truthy JsVal.null = false := rfl

theorem truthy_str (s : String) : truthy (JsVal.str s) = decide (s ≠ "") := rfl

theorem truthy_num (n : JsNum) : truthy (JsVal.num n) = n.truthy := rfl

theorem truthy_bool (b : Bool) : truthy (JsVal.bool b) = b := rfl

theorem typeofStr_ref (r : Ref) : typeofStr (JsVal.ref r) = "object" := rfl

theorem typeofStr_str (s : String) : typeofStr (JsVal.str s) = "string" := rfl

theorem typeofStr_num (n : JsNum) : typeofStr (JsVal.num n) = "number" := rfl

theorem typeofStr_bool (b : Bool) : typeofStr (JsVal.bool b) = "boolean" := rfl

/-- The heap after the `handleRequest` prefix on `androidReqStore` (token
validation, android-v1 payload construction, `payload.token` injection):
cells 3-6 are the freshly built payload graph. -/
def androidOrchStore : Store :=
  androidReqStore ++
  [JsObj.obj [],
   JsObj.obj [("message", JsVal.str "hello")],
   JsObj.obj [("analytics_label", JsVal.str "androidV1Notification")],
   JsObj.obj [("android", JsVal.ref 3), ("data", JsVal.ref 4),
              ("fcm_options", JsVal.ref 5), ("token", JsVal.str "a:1")]]

/-- `handleRequest` on the android fixture factors (definitionally) into the
heap prefix — whose result is `androidOrchStore` and the payload `ref 6` —
followed by the pure `orchestrate` tail. -/
theorem runAndroidRequest_eq (maxN : ℕ) (gw : Gateway) (doc : Option RateLimitData) :
    runAndroidRequest maxN gw doc
      = Except.ok (orchestrate maxN d0 gw true (JsVal.ref 6) "a:1" doc,
                   androidOrchStore) := rfl

/-- The heap after the ios-v1 `createPayload` prefix on `soundStore x`, just
before `finishPayload`: the payload is cell 15, whose `apns` was replaced by
the request's `data.apns` (cell 4). -/
def iosSoundMid (x : JsVal) : Store :=
  soundStore x ++
  [JsObj.obj [("body", JsVal.str "hello")],
   JsObj.obj [],
   JsObj.obj [("body", JsVal.str "hello")],
   JsObj.obj [("alert", JsVal.ref 10), ("sound", JsVal.str "default")],
   JsObj.obj [("aps", JsVal.ref 11)],
   JsObj.obj [("headers", JsVal.ref 9), ("payload", JsVal.ref 12)],
   JsObj.obj [("analytics_label", JsVal.str "iosV1Notification")],
   JsObj.obj [("notification", JsVal.ref 8), ("apns", JsVal.ref 4),
              ("fcm_options", JsVal.ref 14)]]

theorem iosSoundRun (x : JsVal) :
    iosV1.createPayload soundReq (soundStore x)
      = iosV1.finishPayload true (JsVal.ref 15) (iosSoundMid x) := rfl

/-- Same, for the object-sound fixture: payload is cell 16, `apns` replaced
by cell 5, the sound object is cell 2. -/
def iosSoundObjMid (v c : JsVal) : Store :=
  soundObjStore v c ++
  [JsObj.obj [("body", JsVal.str "hello")],
   JsObj.obj [],
   JsObj.obj [("body", JsVal.str "hello")],
   JsObj.obj [("alert", JsVal.ref 11), ("sound", JsVal.str "default")],
   JsObj.obj [("aps", JsVal.ref 12)],
   JsObj.obj [("headers", JsVal.ref 10), ("payload", JsVal.ref 13)],
   JsObj.obj [("analytics_label", JsVal.str "iosV1Notification")],
   JsObj.obj [("notification", JsVal.ref 9), ("apns", JsVal.ref 5),
              ("fcm_options", JsVal.ref 15)]]

theorem iosSoundObjRun (v c : JsVal) :
    iosV1.createPayload soundObjReq (soundObjStore v c)
      = iosV1.finishPayload true (JsVal.ref 16) (iosSoundObjMid v c) := rfl

/-- The heap after the legacy `createPayload` prefix on `soundStore x`:
payload is cell 16, `apns` replaced by cell 4. -/
def legacySoundMid (x : JsVal) : Store :=
  soundStore x ++
  [JsObj.obj [("body", JsVal.str "hello")],
   JsObj.obj [("ttl", JsVal.num (JsNum.q 0)), ("priority", JsVal.str "HIGH")],
   JsObj.obj [],
   JsObj.obj [("body", JsVal.str "hello")],
   JsObj.obj [("alert", JsVal.ref 11), ("sound", JsVal.str "default")],
   JsObj.obj [("aps", JsVal.ref 12)],
   JsObj.obj [("headers", JsVal.ref 10), ("payload", JsVal.ref 13)],
   JsObj.obj [("analytics_label", JsVal.str "legacyNotification")],
   JsObj.obj [("notification", JsVal.ref 8), ("android", JsVal.ref 9),
              ("apns", JsVal.ref 4), ("fcm_options", JsVal.ref 15)]]

set_option maxHeartbeats 4000000 in
theorem legacySoundRun (x : JsVal) :
    legacy.createPayload soundReq (soundStore x)
      = legacy.finishPayload true (JsVal.ref 16) (legacySoundMid x) := rfl

/-- Same, for the object-sound fixture under the legacy transformer:
payload is cell 17, `apns` replaced by cell 5, sound object is cell 2. -/
def legacySoundObjMid (v c : JsVal) : Store :=
  soundObjStore v c ++
  [JsObj.obj [("body", JsVal.str "hello")],
   JsObj.obj [("ttl", JsVal.num (JsNum.q 0)), ("priority", JsVal.str "HIGH")],
   JsObj.obj [],
   JsObj.obj [("body", JsVal.str "hello")],
   JsObj.obj [("alert", JsVal.ref 12), ("sound", JsVal.str "default")],
   JsObj.obj [("aps", JsVal.ref 13)],
   JsObj.obj [("headers", JsVal.ref 11), ("payload", JsVal.ref 14)],
   JsObj.obj [("analytics_label", JsVal.str "legacyNotification")],
   JsObj.obj [("notification", JsVal.ref 9), ("android", JsVal.ref 10),
              ("apns", JsVal.ref 5), ("fcm_options", JsVal.ref 16)]]

set_option maxHeartbeats 4000000 in
theorem legacySoundObjRun (v c : JsVal) :
    legacy.createPayload soundObjReq (soundObjStore v c)
      = legacy.finishPayload true (JsVal.ref 17) (legacySoundObjMid v c) := rfl

/-- Android-v1 request with parametric message, a title and a webhook id:
cells 0 = registration_info, 1 = body, 2 = req. -/
def androidMsgStore (msg : String) : Store :=
  [JsObj.obj [("app_id", JsVal.str "io.homeassistant.companion.android"),
              ("webhook_id", JsVal.str "webhook-1")],
   JsObj.obj [("push_token", JsVal.str "a:1"), ("message", JsVal.str msg),
              ("title", JsVal.str "Example Title"), ("registration_info", JsVal.ref 0)],
   JsObj.obj [("body", JsVal.ref 1)]]

def androidMsgReq : JsVal := JsVal.ref 2

/-- Heap after the android-v1 prefix on `androidMsgStore msg` (no `data`):
payload is cell 6 with empty `android` (3) and `data` (4) objects. -/
def androidMsgMid (msg : String) : Store :=
  androidMsgStore msg ++
  [JsObj.obj [],
   JsObj.obj [],
   JsObj.obj [("analytics_label", JsVal.str "androidV1Notification")],
   JsObj.obj [("android", JsVal.ref 3), ("data", JsVal.ref 4),
              ("fcm_options", JsVal.ref 5)]]

theorem androidMsgRun (msg : String) :
    androidV1.createPayload androidMsgReq (androidMsgStore msg)
      = androidV1.finishData (JsVal.ref 1) (JsVal.ref 6) true (androidMsgMid msg) := rfl

/-! ## Store-operation sequences (for the counter invariants) -/

/-- The three mutating store operations of the rate-limit engine. -/
inductive StoreOp where
  | attempt : StoreOp
  | success : StoreOp
  | error : StoreOp
deriving DecidableEq, Repr

/-- One Firestore-backend mutation.  (The stored post-state of each
`record*` method does not depend on `maxNotificationsPerDay` or the clock,
which only shape the derived status; they are instantiated at `0` / `d0`.) -/
def applyFsOp (st : Option RateLimitData) : StoreOp → Option RateLimitData
  | StoreOp.attempt => some (FirestoreRateLimiter.recordAttempt 0 d0 st).2
  | StoreOp.success => some (FirestoreRateLimiter.recordSuccess 0 d0 st).2
  | StoreOp.error => some (FirestoreRateLimiter.recordError 0 d0 st).2

def applyFsOps (st : Option RateLimitData) (ops : List StoreOp) : Option RateLimitData :=
  ops.foldl applyFsOp st

/-- The record a reader observes (zero-valued when absent). -/
def fsData (st : Option RateLimitData) : RateLimitData :=
  st.getD emptyRateLimitData

/-- One Valkey-backend mutation. -/
def applyVkOp (h : ValkeyHash) : StoreOp → ValkeyHash
  | StoreOp.attempt => (ValkeyRateLimiter.recordAttempt 0 d0 h).2
  | StoreOp.success => (ValkeyRateLimiter.recordSuccess 0 d0 h).2
  | StoreOp.error => (ValkeyRateLimiter.recordError 0 d0 h).2

def applyVkOps (h : ValkeyHash) (ops : List StoreOp) : ValkeyHash :=
  ops.foldl applyVkOp h

/-- Hash field read as `parseRateLimitData` performs it. -/
def vfld (h : ValkeyHash) (f : String) : ℤ :=
  ((h.find? (fun p => p.1 = f)).map Prod.snd).getD 0

/-- All four counter fields of a hash are non-negative (true of every hash
reachable by the engine's `HINCRBY +1` operations). -/
def vkNonneg (h : ValkeyHash) : Prop :=
  0 ≤ vfld h "attemptsCount" ∧ 0 ≤ vfld h "deliveredCount" ∧
  0 ≤ vfld h "errorCount" ∧ 0 ≤ vfld h "totalCount"

/-- Pointwise order on counter records ("monotonically non-decreasing"). -/
def counterLe (a b : RateLimitData) : Prop :=
  a.attemptsCount ≤ b.attemptsCount ∧ a.deliveredCount ≤ b.deliveredCount ∧
  a.errorCount ≤ b.errorCount ∧ a.totalCount ≤ b.totalCount

/-- `admissibleAux a s ops`: every success/error op in `ops` is covered by a
prior attempt, starting from `a` attempts and `s` success+error ops already
performed. -/
def admissibleAux : ℕ → ℕ → List StoreOp → Bool
  | _, _, [] => true
  | a, s, StoreOp.attempt :: rest => admissibleAux (a + 1) s rest
  | a, s, _ :: rest => decide (s + 1 ≤ a) && admissibleAux a (s + 1) rest

/-- The call discipline the orchestrator guarantees: each `recordSuccess` /
`recordError` is preceded by its own `recordAttempt`. -/
def admissible (ops : List StoreOp) : Bool := admissibleAux 0 0 ops

/-! ## Counter-invariant lemmas -/


theorem parse_eq_vfld (h : ValkeyHash) :
    parseRateLimitData h = ⟨(vfld h "attemptsCount").toNat, (vfld h "deliveredCount").toNat,
      (vfld h "errorCount").toNat, (vfld h "totalCount").toNat⟩ := rfl

theorem vfld_map_upd (h : ValkeyHash) (f g : String) (n : ℤ) :
    vfld (h.map (fun p => if p.1 = f then (f, p.2 + n) else p)) g
      = if g = f ∧ h.any (fun p => p.1 = f) then vfld h g + n else vfld h g := by
  induction h with
  | nil => simp [vfld]
  | cons p t ih =>
    by_cases hp : p.1 = f
    · by_cases hg : g = f
      · subst hg
        simp [vfld, List.find?, hp, List.any_cons]
      · simp only [List.map_cons, hp, if_pos]
        simp [vfld, List.find?, hp, hg, List.any_cons] at ih ⊢
        have : ¬ (f = g) := fun hfg => hg hfg.symm
        simp [this, ih]
    · by_cases hpg : p.1 = g
      · have hg : ¬ (g = f) := by
          intro hgf; exact hp (hpg.trans hgf)
        simp [vfld, List.find?, hp, hpg, hg]
      · simp only [List.map_cons, hp, if_neg, List.any_cons]
        simp [vfld, List.find?, hp, hpg] at ih ⊢
        simpa [hp] using ih

theorem vfld_not_found (h : ValkeyHash) (f : String)
    (hany : h.any (fun p => p.1 = f) = false) : vfld h f = 0 := by
  induction h with
  | nil => simp [vfld]
  | cons p t ih =>
    simp [List.any_cons] at hany
    simp [vfld, List.find?, hany.1] at ih ⊢
    exact ih hany.2

theorem vfld_append_single (h : ValkeyHash) (f g : String) (n : ℤ)
    (hany : h.any (fun p => p.1 = f) = false) :
    vfld (h ++ [(f, n)]) g = if g = f then n else vfld h g := by
  induction h with
  | nil =>
    by_cases hg : g = f
    · subst hg; simp [vfld, List.find?]
    · have : ¬ (f = g) := fun hfg => hg hfg.symm
      simp [vfld, List.find?, this, hg]
  | cons p t ih =>
    simp [List.any_cons] at hany
    by_cases hpg : p.1 = g
    · have hg : ¬ (g = f) := by
        intro hgf; exact hany.1 (hpg.trans hgf)
      simp [vfld, List.find?, hpg, hg]
    · simp [vfld, List.find?, hpg] at ih ⊢
      simpa [hpg] using ih hany.2

theorem vfld_hincrBy (h : ValkeyHash) (f g : String) (n : ℤ) :
    vfld (hincrBy h f n) g = if g = f then vfld h g + n else vfld h g := by
  unfold hincrBy
  by_cases hany : h.any (fun p => p.1 = f) = true
  · simp [hany, vfld_map_upd]
  · simp only [Bool.not_eq_true] at hany
    simp [hany, vfld_append_single]
    by_cases hg : g = f
    · subst hg
      simp [vfld_not_found h g hany]
    · simp [hg]

theorem vk_op_fields (h : ValkeyHash) (op : StoreOp) :
    vfld (applyVkOp h op) "attemptsCount"
        = vfld h "attemptsCount" + (if op = StoreOp.attempt then 1 else 0)
  ∧ vfld (applyVkOp h op) "deliveredCount"
        = vfld h "deliveredCount" + (if op = StoreOp.success then 1 else 0)
  ∧ vfld (applyVkOp h op) "errorCount"
        = vfld h "errorCount" + (if op = StoreOp.error then 1 else 0)
  ∧ vfld (applyVkOp h op) "totalCount"
        = vfld h "totalCount" + (if op = StoreOp.attempt then 0 else 1) := by
  cases op <;>
  simp [applyVkOp, ValkeyRateLimiter.recordAttempt, ValkeyRateLimiter.recordSuccess,
    ValkeyRateLimiter.recordError, vfld_hincrBy]

theorem fs_op_data (st : Option RateLimitData) (op : StoreOp) :
    fsData (applyFsOp st op)
      = { attemptsCount := (fsData st).attemptsCount + (if op = StoreOp.attempt then 1 else 0)
          deliveredCount := (fsData st).deliveredCount + (if op = StoreOp.success then 1 else 0)
          errorCount := (fsData st).errorCount + (if op = StoreOp.error then 1 else 0)
          totalCount := (fsData st).totalCount + (if op = StoreOp.attempt then 0 else 1) } := by
  cases op <;> cases st <;>
  simp [applyFsOp, fsData, FirestoreRateLimiter.recordAttempt,
    FirestoreRateLimiter.recordSuccess, FirestoreRateLimiter.recordError,
    emptyRateLimitData]

theorem vk_sim (ops : List StoreOp) :
    ∀ (st : Option RateLimitData) (h : ValkeyHash),
      parseRateLimitData h = fsData st → vkNonneg h →
      parseRateLimitData (applyVkOps h ops) = fsData (applyFsOps st ops) := by
  induction ops with
  | nil => intro st h hp _; simpa [applyVkOps, applyFsOps] using hp
  | cons op rest ih =>
    intro st h hp hn
    have hfields := vk_op_fields h op
    have hstep : parseRateLimitData (applyVkOp h op) = fsData (applyFsOp st op) := by
      rw [fs_op_data, parse_eq_vfld, hfields.1, hfields.2.1, hfields.2.2.1, hfields.2.2.2]
      rw [parse_eq_vfld] at hp
      have h1 := congrArg RateLimitData.attemptsCount hp
      have h2 := congrArg RateLimitData.deliveredCount hp
      have h3 := congrArg RateLimitData.errorCount hp
      have h4 := congrArg RateLimitData.totalCount hp
      simp at h1 h2 h3 h4
      obtain ⟨hn1, hn2, hn3, hn4⟩ := hn
      cases op <;> simp [RateLimitData.mk.injEq] <;> omega
    have hn' : vkNonneg (applyVkOp h op) := by
      obtain ⟨hn1, hn2, hn3, hn4⟩ := hn
      refine ⟨?_, ?_, ?_, ?_⟩
      · rw [hfields.1]; split <;> omega
      · rw [hfields.2.1]; split <;> omega
      · rw [hfields.2.2.1]; split <;> omega
      · rw [hfields.2.2.2]; split <;> omega
    have := ih (applyFsOp st op) (applyVkOp h op) hstep hn'
    simpa [applyVkOps, applyFsOps] using this

theorem fs_total_inv (ops : List StoreOp) :
    ∀ st, (fsData st).totalCount = (fsData st).deliveredCount + (fsData st).errorCount →
      (fsData (applyFsOps st ops)).totalCount
        = (fsData (applyFsOps st ops)).deliveredCount + (fsData (applyFsOps st ops)).errorCount := by
  induction ops with
  | nil => intro st h; simpa [applyFsOps] using h
  | cons op rest ih =>
    intro st h
    have hstep := fs_op_data st op
    have : (fsData (applyFsOp st op)).totalCount
        = (fsData (applyFsOp st op)).deliveredCount + (fsData (applyFsOp st op)).errorCount := by
      rw [hstep]; cases op <;> simp <;> omega
    simpa [applyFsOps] using ih (applyFsOp st op) this

theorem fs_mono_step (st : Option RateLimitData) (op : StoreOp) :
    counterLe (fsData st) (fsData (applyFsOp st op)) := by
  rw [counterLe, fs_op_data]
  cases op <;> simp

theorem fs_admissible (ops : List StoreOp) :
    ∀ (st : Option RateLimitData) (a s : ℕ),
      (fsData st).attemptsCount = a →
      (fsData st).deliveredCount + (fsData st).errorCount = s →
      s ≤ a → admissibleAux a s ops = true →
      (fsData (applyFsOps st ops)).deliveredCount + (fsData (applyFsOps st ops)).errorCount
        ≤ (fsData (applyFsOps st ops)).attemptsCount := by
  induction ops with
  | nil =>
    intro st a s ha hs hle _
    simp only [applyFsOps, List.foldl_nil]
    omega
  | cons op rest ih =>
    intro st a s ha hs hle hadm
    have hstep := fs_op_data st op
    have hfold : applyFsOps st (op :: rest) = applyFsOps (applyFsOp st op) rest := by
      simp [applyFsOps]
    rw [hfold]
    cases op with
    | attempt =>
      simp only [admissibleAux] at hadm
      exact ih (applyFsOp st StoreOp.attempt) (a + 1) s
        (by rw [hstep]; simp; omega) (by rw [hstep]; simp; omega) (by omega) hadm
    | success =>
      simp only [admissibleAux, Bool.and_eq_true, decide_eq_true_eq] at hadm
      exact ih (applyFsOp st StoreOp.success) a (s + 1)
        (by rw [hstep]; simp; omega) (by rw [hstep]; simp; omega) (by omega) hadm.2
    | error =>
      simp only [admissibleAux, Bool.and_eq_true, decide_eq_true_eq] at hadm
      exact ih (applyFsOp st StoreOp.error) a (s + 1)
        (by rw [hstep]; simp; omega) (by rw [hstep]; simp; omega) (by omega) hadm.2

/-! ## Claim C4 -/

/-- Claim C4, counterexample: from the zero-valued (absent) record, the
single-operation sequence `[recordSuccess]` — allowed by the claim's "in any
order" — produces `{attempts 0, delivered 1, error 0, total 1}` on both
backends, violating `deliveredCount ≤ attemptsCount`. -/
theorem claim_C4_counterexample :
    fsData (applyFsOps none [StoreOp.success]) = ⟨0, 1, 0, 1⟩
  ∧ parseRateLimitData (applyVkOps [] [StoreOp.success]) = ⟨0, 1, 0, 1⟩
  ∧ ¬ ((fsData (applyFsOps none [StoreOp.success])).deliveredCount
        ≤ (fsData (applyFsOps none [StoreOp.success])).attemptsCount) := by
  decide

/-- Claim C4, amended: starting from the zero-valued record, after every
finite sequence of store operations (1) `totalCount = deliveredCount +
errorCount` holds (hence after each op, each prefix being a sequence),
(2) the Valkey backend computes exactly the same record as the Firestore
backend, (3) every single operation is monotone non-decreasing in all four
counters from any state, and (4) `deliveredCount ≤ attemptsCount` and
`errorCount ≤ attemptsCount` hold provided each recordSuccess/recordError is
preceded by its own recordAttempt (the discipline the orchestrator follows);
the claim's unrestricted "in any order" fails per the counterexample. -/
theorem claim_C4_amended (ops : List StoreOp) :
    ((fsData (applyFsOps none ops)).totalCount
        = (fsData (applyFsOps none ops)).deliveredCount
          + (fsData (applyFsOps none ops)).errorCount)
  ∧ parseRateLimitData (applyVkOps [] ops) = fsData (applyFsOps none ops)
  ∧ (∀ (st : Option RateLimitData) (op : StoreOp),
        counterLe (fsData st) (fsData (applyFsOp st op)))
  ∧ (admissible ops = true →
        (fsData (applyFsOps none ops)).deliveredCount
            ≤ (fsData (applyFsOps none ops)).attemptsCount
      ∧ (fsData (applyFsOps none ops)).errorCount
            ≤ (fsData (applyFsOps none ops)).attemptsCount) := by
  refine ⟨fs_total_inv ops none (by decide), vk_sim ops none [] (by decide) (by refine ⟨?_, ?_, ?_, ?_⟩ <;> simp [vfld]),
    fs_mono_step, fun hadm => ?_⟩
  have h := fs_admissible ops none 0 0 (by decide) (by decide) (by omega) hadm
  constructor <;> omega

/-- Claim C4, witness: the amended theorem applied to the concrete sequence
attempt-success-attempt-error, discharging the admissibility hypothesis. -/
theorem claim_C4_witness :
    ((fsData (applyFsOps none
        [StoreOp.attempt, StoreOp.success, StoreOp.attempt, StoreOp.error])).totalCount
      = (fsData (applyFsOps none
          [StoreOp.attempt, StoreOp.success, StoreOp.attempt, StoreOp.error])).deliveredCount
        + (fsData (applyFsOps none
            [StoreOp.attempt, StoreOp.success, StoreOp.attempt, StoreOp.error])).errorCount)
  ∧ parseRateLimitData (applyVkOps []
        [StoreOp.attempt, StoreOp.success, StoreOp.attempt, StoreOp.error])
      = fsData (applyFsOps none
          [StoreOp.attempt, StoreOp.success, StoreOp.attempt, StoreOp.error])
  ∧ counterLe (fsData (some ⟨1, 1, 0, 1⟩)) (fsData (applyFsOp (some ⟨1, 1, 0, 1⟩) StoreOp.error))
  ∧ ((fsData (applyFsOps none
        [StoreOp.attempt, StoreOp.success, StoreOp.attempt, StoreOp.error])).deliveredCount
      ≤ (fsData (applyFsOps none
          [StoreOp.attempt, StoreOp.success, StoreOp.attempt, StoreOp.error])).attemptsCount
    ∧ (fsData (applyFsOps none
        [StoreOp.attempt, StoreOp.success, StoreOp.attempt, StoreOp.error])).errorCount
      ≤ (fsData (applyFsOps none
          [StoreOp.attempt, StoreOp.success, StoreOp.attempt, StoreOp.error])).attemptsCount) := by
  have h := claim_C4_amended [StoreOp.attempt, StoreOp.success, StoreOp.attempt, StoreOp.error]
  exact ⟨h.1, h.2.1, h.2.2.1 (some ⟨1, 1, 0, 1⟩) StoreOp.error, h.2.2.2 (by decide)⟩

/-! ## Claim C10 -/

/-- Claim C10, counterexample: the legacy `getRateLimitsObject`
(src/functions/index.js) clamps only the exact value `-1`; for a record with
`deliveredCount = 152` (two past the maximum of 150) it returns
`remaining = -2`, a negative value, not `max(0, maximum − deliveredCount)`. -/
theorem claim_C10_counterexample :
    (legacyIndex.getRateLimitsObject d0 ⟨160, 152, 0, 152⟩).remaining = -2
  ∧ (legacyIndex.getRateLimitsObject d0 ⟨160, 152, 0, 152⟩).remaining
      ≠ max 0 ((legacyIndex.MAX_NOTIFICATIONS_PER_DAY : ℤ) - (152 : ℤ)) := by
  decide

/-- Claim C10, amended: for every record, the rate-limiter backends'
`_getRateLimitsObject` (shared derivation of the Firestore and Valkey
classes) satisfies `remaining = max(0, maximum − deliveredCount)` and is
never negative; the legacy `index.js` `getRateLimitsObject` instead clamps
only the exact value `-1`, so it agrees with `max(0, ...)` only while
`deliveredCount ≤ maximum + 1` and is negative beyond. -/
theorem claim_C10_amended (maxN : ℕ) (today : DateParts) (doc : RateLimitData) :
    (FirestoreRateLimiter.getRateLimitsObject maxN today doc).remaining
        = max 0 ((maxN : ℤ) - (doc.deliveredCount : ℤ))
  ∧ 0 ≤ (FirestoreRateLimiter.getRateLimitsObject maxN today doc).remaining
  ∧ (∀ h : ValkeyHash,
      (ValkeyRateLimiter.checkRateLimit maxN today h).rateLimits.remaining
        = max 0 ((maxN : ℤ) - ((parseRateLimitData h).deliveredCount : ℤ)))
  ∧ (legacyIndex.getRateLimitsObject today doc).remaining
        = (if (150 : ℤ) - (doc.deliveredCount : ℤ) = -1 then 0
           else (150 : ℤ) - (doc.deliveredCount : ℤ))
  ∧ ((doc.deliveredCount : ℤ) ≤ 151 →
        (legacyIndex.getRateLimitsObject today doc).remaining
          = max 0 ((150 : ℤ) - (doc.deliveredCount : ℤ))) := by
  refine ⟨?_, ?_, fun h => ?_, ?_, fun hle => ?_⟩ <;>
  simp [FirestoreRateLimiter.getRateLimitsObject, legacyIndex.getRateLimitsObject,
    legacyIndex.MAX_NOTIFICATIONS_PER_DAY, ValkeyRateLimiter.checkRateLimit,
    FirestoreRateLimiter.statusFor] <;>
  split <;> omega

/-- Claim C10, witness: the amended theorem at `max = 5`, record
`{attempts 1, delivered 1, error 0, total 1}`, legacy-bound hypothesis
discharged. -/
theorem claim_C10_witness :
    (FirestoreRateLimiter.getRateLimitsObject 5 d0 ⟨1, 1, 0, 1⟩).remaining
        = max 0 ((5 : ℤ) - (1 : ℤ))
  ∧ (ValkeyRateLimiter.checkRateLimit 5 d0 [("deliveredCount", 1)]).rateLimits.remaining
        = max 0 ((5 : ℤ) - ((parseRateLimitData [("deliveredCount", 1)]).deliveredCount : ℤ))
  ∧ (legacyIndex.getRateLimitsObject d0 ⟨1, 1, 0, 1⟩).remaining
        = max 0 ((150 : ℤ) - (1 : ℤ)) := by
  have h := claim_C10_amended 5 d0 ⟨1, 1, 0, 1⟩
  exact ⟨h.1, h.2.2.1 [("deliveredCount", 1)], h.2.2.2.2 (by decide)⟩

/-! ## Claim C1 -/

/-- Claim C1 (code bug): with `max = 5` and an existing record
`{attempts 5, delivered 4}` (the spec's exact-threshold scenario), three
serialized updateRateLimits-requests with a succeeding gateway produce
statuses 201, 429, 429 — and the one-shot rate-limit push is sent TWICE (by
the second and the third request).  `deliveredCount` freezes at `maximum`
because the 429 path never calls `recordSuccess`, so
`shouldSendRateLimitNotification` (`deliveredCount === maximum`) is true at
every later `recordAttempt` and `sendRateLimitedNotification` fires on every
subsequent request of the day, not at most once as the claim (and spec
scenario 4, "A second identical request: ... no one-shot") states. -/
theorem claim_C1_codeBug :
    runAndroidSeq 5 [okGateway, okGateway, okGateway] (some ⟨5, 4, 0, 4⟩)
      = ([some 201, some 429, some 429], some ⟨8, 5, 0, 5⟩, 2) := by
  decide

/-! ## Claim C5 -/

/-- Claim C5 (code bug): for the request `{push_token: "a:1",
message: "hello", registration_info: {app_id: "io.robbie.HomeAssistant"},
data: {apns: {}}}`, the ios-v1 `createPayload` throws a `TypeError`
(`payload.apns.payload` is `undefined` when the caller-supplied `data.apns`
lacks a `payload.aps` subtree) and `handleRequest` does not catch it: the
request terminates with an uncaught exception and no HTTP response, contrary
to the claim that exactly one response is emitted for every JSON body. -/
theorem claim_C5_codeBug :
    handleRequest 500 d0 okGateway iosV1.createPayload iosCrashReq none iosCrashStore
      = Except.error ⟨"Cannot read properties of undefined (reading aps)"⟩ := rfl

/-! ## Claim C7 -/

/-- Claim C7, counterexample: on the request `{push_token: "a:1",
message: "clear_badge", registration_info: {app_id: "io.robbie.HomeAssistant"}}`
the LEGACY transformer's `clear_badge` branch sets neither
`homeassistant.command` (the field is absent in its output) nor
`contentAvailable`, so the push type is `"alert"`, not `"background"` —
contradicting the claim for the legacy transformer. -/
theorem claim_C7_counterexample :
    finalPath (legacy.createPayload clearBadgeReq) clearBadgeStore
        ["apns", "payload", "homeassistant"] = some JsVal.undef
  ∧ finalPath (legacy.createPayload clearBadgeReq) clearBadgeStore
        ["apns", "headers", "apns-push-type"] = some (JsVal.str "alert") := by
  decide

/-- Claim C7, amended: on the canonical `clear_badge` request from the Home
Assistant iOS app, the ios-v1 transformer behaves as claimed —
`updateRateLimits = false`, cleared notification, `aps.badge = 0`,
`homeassistant.command = "clear_badge"`, `apns-push-type = "background"` —
while the legacy transformer returns `updateRateLimits = false` and
`aps.badge = 0` but sets no `homeassistant` command and emits
`apns-push-type = "alert"`. -/
theorem claim_C7_amended :
    finalFlag (iosV1.createPayload clearBadgeReq) clearBadgeStore = some false
  ∧ finalPath (iosV1.createPayload clearBadgeReq) clearBadgeStore
        ["apns", "payload", "aps", "badge"] = some (JsVal.num (JsNum.q 0))
  ∧ finalPath (iosV1.createPayload clearBadgeReq) clearBadgeStore
        ["apns", "payload", "homeassistant", "command"] = some (JsVal.str "clear_badge")
  ∧ finalPath (iosV1.createPayload clearBadgeReq) clearBadgeStore
        ["apns", "headers", "apns-push-type"] = some (JsVal.str "background")
  ∧ finalPath (iosV1.createPayload clearBadgeReq) clearBadgeStore
        ["notification"] ≠ none
  ∧ finalFlag (legacy.createPayload clearBadgeReq) clearBadgeStore = some false
  ∧ finalPath (legacy.createPayload clearBadgeReq) clearBadgeStore
        ["apns", "payload", "aps", "badge"] = some (JsVal.num (JsNum.q 0))
  ∧ finalPath (legacy.createPayload clearBadgeReq) clearBadgeStore
        ["apns", "payload", "homeassistant"] = some JsVal.undef
  ∧ finalPath (legacy.createPayload clearBadgeReq) clearBadgeStore
        ["apns", "headers", "apns-push-type"] = some (JsVal.str "alert") := by
  decide

/-! ## Claim C6 -/

/-- Claim C6, counterexample: running the ios-v1 transformer on a request
carrying `data.apns = {headers: {}, payload: {aps: {}}}` mutates the request:
cell 1 is `req.body.data.apns.headers`, which has no `apns-push-type` before
the call and carries `apns-push-type = "alert"` after it; moreover the
returned payload's `apns` IS the request's own `data.apns` object (cell 4),
so the payload shares mutable structure with the request. -/
theorem claim_C6_counterexample :
    getFieldS (iosApnsStore "hello") 1 "apns-push-type" = none
  ∧ getFieldS (storeAfter (iosV1.createPayload iosApnsReq) (iosApnsStore "hello")) 1
        "apns-push-type" = some (JsVal.str "alert")
  ∧ getFieldS (storeAfter (iosV1.createPayload iosApnsReq) (iosApnsStore "hello")) 15
        "apns" = some (JsVal.ref 4) := by
  decide



/-- Final heap of the ios-v1 transformer on the data-free request: the three
request cells are untouched; cells 3-10 are the fresh payload graph. -/
def iosNoDataFinal (msg : String) : Store :=
  iosNoDataStore msg ++
  [JsObj.obj [("body", JsVal.str msg)],
   JsObj.obj [("apns-push-type", JsVal.str "alert")],
   JsObj.obj [("body", JsVal.str msg)],
   JsObj.obj [("alert", JsVal.ref 5), ("sound", JsVal.str "default")],
   JsObj.obj [("aps", JsVal.ref 6)],
   JsObj.obj [("headers", JsVal.ref 4), ("payload", JsVal.ref 7)],
   JsObj.obj [("analytics_label", JsVal.str "iosV1Notification")],
   JsObj.obj [("notification", JsVal.ref 3), ("apns", JsVal.ref 8),
              ("fcm_options", JsVal.ref 9)]]



/-- Heap after the ios-v1 prefix on the data-free request, before
`finishPayload`. -/
def iosNoDataMid (msg : String) : Store :=
  iosNoDataStore msg ++
  [JsObj.obj [("body", JsVal.str msg)],
   JsObj.obj [],
   JsObj.obj [("body", JsVal.str msg)],
   JsObj.obj [("alert", JsVal.ref 5), ("sound", JsVal.str "default")],
   JsObj.obj [("aps", JsVal.ref 6)],
   JsObj.obj [("headers", JsVal.ref 4), ("payload", JsVal.ref 7)],
   JsObj.obj [("analytics_label", JsVal.str "iosV1Notification")],
   JsObj.obj [("notification", JsVal.ref 3), ("apns", JsVal.ref 8),
              ("fcm_options", JsVal.ref 9)]]

set_option maxHeartbeats 40000000 in
theorem iosNoDataRunA (msg : String) :
    iosV1.createPayload iosNoDataReq (iosNoDataStore msg)
      = iosV1.finishPayload true (JsVal.ref 10) (iosNoDataMid msg) := rfl

set_option maxHeartbeats 40000000 in
theorem iosNoDataRunB (msg : String) :
    iosV1.finishPayload true (JsVal.ref 10) (iosNoDataMid msg)
      = Except.ok ((true, JsVal.ref 10), iosNoDataFinal msg) := rfl

/-- Heap after the ios-v1 prefix on the `data.apns` request, before
`finishPayload`: the payload (cell 15) already aliases the request's
`data.apns` (cell 4). -/
def iosApnsMid (msg : String) : Store :=
  iosApnsStore msg ++
  [JsObj.obj [("body", JsVal.str msg)],
   JsObj.obj [],
   JsObj.obj [("body", JsVal.str msg)],
   JsObj.obj [("alert", JsVal.ref 10), ("sound", JsVal.str "default")],
   JsObj.obj [("aps", JsVal.ref 11)],
   JsObj.obj [("headers", JsVal.ref 9), ("payload", JsVal.ref 12)],
   JsObj.obj [("analytics_label", JsVal.str "iosV1Notification")],
   JsObj.obj [("notification", JsVal.ref 8), ("apns", JsVal.ref 4),
              ("fcm_options", JsVal.ref 14)]]

/-- Final heap of the ios-v1 transformer on the request supplying
`data.apns`: cell 1, the request's own `data.apns.headers`, has been written
through (`apns-push-type = "alert"`), and cell 15, the returned payload,
aliases the request's `data.apns` (cell 4). -/
def iosApnsFinal (msg : String) : Store :=
  [JsObj.obj [("app_id", JsVal.str "io.homeassistant.companion.android")],
   JsObj.obj [("apns-push-type", JsVal.str "alert")],
   JsObj.obj [],
   JsObj.obj [("aps", JsVal.ref 2)],
   JsObj.obj [("headers", JsVal.ref 1), ("payload", JsVal.ref 3)],
   JsObj.obj [("apns", JsVal.ref 4)],
   JsObj.obj [("push_token", JsVal.str "a:1"), ("message", JsVal.str msg),
              ("registration_info", JsVal.ref 0), ("data", JsVal.ref 5)],
   JsObj.obj [("body", JsVal.ref 6)],
   JsObj.obj [("body", JsVal.str msg)],
   JsObj.obj [],
   JsObj.obj [("body", JsVal.str msg)],
   JsObj.obj [("alert", JsVal.ref 10), ("sound", JsVal.str "default")],
   JsObj.obj [("aps", JsVal.ref 11)],
   JsObj.obj [("headers", JsVal.ref 9), ("payload", JsVal.ref 12)],
   JsObj.obj [("analytics_label", JsVal.str "iosV1Notification")],
   JsObj.obj [("notification", JsVal.ref 8), ("apns", JsVal.ref 4),
              ("fcm_options", JsVal.ref 14)]]

set_option maxHeartbeats 40000000 in
theorem iosApnsRunA (msg : String) :
    iosV1.createPayload iosApnsReq (iosApnsStore msg)
      = iosV1.finishPayload true (JsVal.ref 15) (iosApnsMid msg) := rfl

set_option maxHeartbeats 40000000 in
theorem iosApnsRunB (msg : String) :
    iosV1.finishPayload true (JsVal.ref 15) (iosApnsMid msg)
      = Except.ok ((true, JsVal.ref 15), iosApnsFinal msg) := rfl

/-- Claim C6, amended: the transformers are deterministic functions of the
request, but they do not always produce a fresh payload tree: for every
message, (a) on a request with no `data` the ios-v1 transformer leaves the
request's heap cells untouched and returns a freshly allocated payload,
while (b) on a request supplying `data.apns` the returned payload's `apns`
field aliases the request's own `data.apns` object and the final
`apns-push-type` header write goes through that alias, mutating
`req.body.data.apns.headers`. -/
theorem claim_C6_amended (msg : String) :
    (storeAfter (iosV1.createPayload iosNoDataReq) (iosNoDataStore msg)).take 3
        = iosNoDataStore msg
  ∧ outOf (iosV1.createPayload iosNoDataReq) (iosNoDataStore msg) = some (true, JsVal.ref 10)
  ∧ outOf (iosV1.createPayload iosApnsReq) (iosApnsStore msg) = some (true, JsVal.ref 15)
  ∧ getFieldS (storeAfter (iosV1.createPayload iosApnsReq) (iosApnsStore msg)) 15 "apns"
        = some (JsVal.ref 4)
  ∧ getFieldS (storeAfter (iosV1.createPayload iosApnsReq) (iosApnsStore msg)) 1
        "apns-push-type" = some (JsVal.str "alert")
  ∧ getFieldS (iosApnsStore msg) 1 "apns-push-type" = none := by
  have h1 := (iosNoDataRunA msg).trans (iosNoDataRunB msg)
  have h2 := (iosApnsRunA msg).trans (iosApnsRunB msg)
  refine ⟨?_, ?_, ?_, ?_, ?_, rfl⟩ <;>
  simp only [storeAfter, outOf, h1, h2] <;> rfl

/-! ## Claim C3 -/

/-- Claim C3, counterexample: an error with no `messaging/` code whose
message contains "message is too big" is NOT classified `PayloadTooLarge`:
the message-substring test sits inside the
`incomingError.code.startsWith('messaging/')` guard, so this error falls
through to `reportError` — a structured error log entry IS written — and the
response is `InternalError`. -/
theorem claim_C3_counterexample :
    (handleError "sendNotification" ⟨none, "message is too big"⟩ true).logged = true
  ∧ (handleError "sendNotification" ⟨none, "message is too big"⟩ true).response
      = some ⟨500, RespBody.classified "InternalError" none "sendNotification"
          "message is too big"⟩ := by
  decide

/-- Claim C3, amended: for every error whose code starts with `messaging/`
and whose stripped code is neither of the two token-error codes: if the
stripped code is `invalid-argument` or `payload-too-large`, or the message
contains "message is too big" / "payload too large" case-insensitively, then
the (exiting-mode) response is HTTP 500 with errorType `PayloadTooLarge`
carrying errorCode, errorStep and message, and no structured error log entry
is written.  (Errors without a `messaging/` code always take the
`InternalError` path, per the counterexample.) -/
theorem claim_C3_amended (code msg step : String)
    (hpre : strStartsWith code "messaging/" = true)
    (hne1 : replaceFirstStr code "messaging/" "" ≠ "invalid-registration-token")
    (hne2 : replaceFirstStr code "messaging/" "" ≠ "registration-token-not-registered")
    (hcond : replaceFirstStr code "messaging/" "" = "invalid-argument" ∨
             replaceFirstStr code "messaging/" "" = "payload-too-large" ∨
             (msg ≠ "" ∧ (strIncludes (toLowerStr msg) "message is too big" = true ∨
                          strIncludes (toLowerStr msg) "payload too large" = true))) :
    handleError step ⟨some code, msg⟩ true
      = ⟨some ⟨500, RespBody.classified "PayloadTooLarge"
          (some (replaceFirstStr code "messaging/" "")) step msg⟩, false⟩ := by
  simp only [handleError, hpre, if_true]
  rw [if_neg (fun h => by rcases h with h | h; exacts [hne1 h, hne2 h]), if_pos hcond]
  simp

/-- Claim C3, witness: the amended theorem at the concrete error
`{code: "messaging/internal-error", message: "the Message Is Too Big"}` —
the substring branch — with all hypotheses discharged by computation. -/
theorem claim_C3_witness :
    handleError "sendNotification"
        ⟨some "messaging/internal-error", "the Message Is Too Big"⟩ true
      = ⟨some ⟨500, RespBody.classified "PayloadTooLarge"
          (some (replaceFirstStr "messaging/internal-error" "messaging/" ""))
          "sendNotification" "the Message Is Too Big"⟩, false⟩ :=
  claim_C3_amended "messaging/internal-error" "the Message Is Too Big"
    "sendNotification" (by decide) (by decide) (by decide)
    (Or.inr (Or.inr ⟨by decide, Or.inl (by decide)⟩))

/-! ## Claim C2 -/

/-- Claim C2 (confirmed): for every request with `updateRateLimits = true`
(here the android-v1 fixture, whose message is not a command), every gateway
behavior and every per-(token,day) record whose `deliveredCount` has reached
the maximum — so that `recordAttempt` returns `isRateLimited = true` — the
orchestrator responds HTTP 429 with errorType `RateLimited`, target = the
token, and that attempt's `rateLimits`; the store holds the post-attempt
record; and the gateway is never invoked with the notification payload (the
trace holds at most the one-shot rate-limit push, which fires exactly when
`deliveredCount = maximum`). -/
theorem claim_C2 (maxN : ℕ) (gw : Gateway) (doc : RateLimitData)
    (h : maxN ≤ doc.deliveredCount) :
    runAndroidRequest maxN gw (some doc)
      = Except.ok ((⟨429, RespBody.rateLimited "RateLimited" rateLimitedMessage "a:1"
            (FirestoreRateLimiter.recordAttempt maxN d0 (some doc)).1.rateLimits⟩,
          some { doc with attemptsCount := doc.attemptsCount + 1 },
          if doc.deliveredCount = maxN then [GEvent.gatewayRLSend] else []),
         androidOrchStore)
  ∧ (∀ p, GEvent.gatewaySend p
        ∉ (if doc.deliveredCount = maxN then [GEvent.gatewayRLSend]
           else ([] : List GEvent))) := by
  constructor
  · rw [runAndroidRequest_eq]
    refine congrArg Except.ok (congrArg (fun x => (x, androidOrchStore)) ?_)
    by_cases he : doc.deliveredCount = maxN <;>
    simp [orchestrate, FirestoreRateLimiter.recordAttempt, FirestoreRateLimiter.statusFor,
      FirestoreRateLimiter.checkRateLimit, h, he]
  · intro p
    by_cases he : doc.deliveredCount = maxN <;> simp [he]

/-- Claim C2, witness: the theorem at `max = 5`, record
`{attempts 6, delivered 5, error 0, total 5}` and the all-success gateway. -/
theorem claim_C2_witness :
    runAndroidRequest 5 okGateway (some ⟨6, 5, 0, 5⟩)
      = Except.ok ((⟨429, RespBody.rateLimited "RateLimited" rateLimitedMessage "a:1"
            (FirestoreRateLimiter.recordAttempt 5 d0 (some ⟨6, 5, 0, 5⟩)).1.rateLimits⟩,
          some { (⟨6, 5, 0, 5⟩ : RateLimitData) with attemptsCount := 6 + 1 },
          if (5 : ℕ) = 5 then [GEvent.gatewayRLSend] else []),
         androidOrchStore)
  ∧ (∀ p, GEvent.gatewaySend p
        ∉ (if (5 : ℕ) = 5 then [GEvent.gatewayRLSend] else ([] : List GEvent))) :=
  claim_C2 5 okGateway ⟨6, 5, 0, 5⟩ (by decide)

/-! ## Claim C8 -/

theorem strictEq_str (a b : String) :
    strictEq (JsVal.str a) (JsVal.str b) = decide (a = b) := rfl

theorem any_eq_mem (msg : String) (l : List String) :
    (l.any fun c => decide (msg = c)) = decide (msg ∈ l) := by
  induction l with
  | nil => simp
  | cons c t ih => simp [List.any_cons, ih, List.mem_cons]

set_option maxHeartbeats 2000000

/-- Claim C8 (confirmed): for every message, the android-v1 transformer
returns `updateRateLimits = false` exactly when the message is one of the 22
values of `androidMessagesToIgnore`, and `message`, `title` and
`registration_info.webhook_id` are reflected into `payload.data` when
present (presence is JS truthiness, so a non-empty `message`). -/
theorem claim_C8 (msg : String) :
    (finalFlag (androidV1.createPayload androidMsgReq) (androidMsgStore msg)
        = some (decide (msg ∉ androidV1.androidMessagesToIgnore)))
  ∧ (msg ≠ "" → finalPath (androidV1.createPayload androidMsgReq) (androidMsgStore msg)
        ["data", "message"] = some (JsVal.str msg))
  ∧ finalPath (androidV1.createPayload androidMsgReq) (androidMsgStore msg)
        ["data", "title"] = some (JsVal.str "Example Title")
  ∧ finalPath (androidV1.createPayload androidMsgReq) (androidMsgStore msg)
        ["data", "webhook_id"] = some (JsVal.str "webhook-1") := by
  have hrun := androidMsgRun msg
  by_cases hm : msg = ""
  · subst hm
    refine ⟨by decide, by simp, by decide, by decide⟩
  · by_cases hmem : msg ∈ androidV1.androidMessagesToIgnore <;>
    · refine ⟨?_, fun _ => ?_, ?_, ?_⟩ <;>
      · simp only [finalFlag, finalPath]
        rw [hrun]
        simp [androidV1.finishData, androidMsgMid, androidMsgStore, run_bind,
          run_pure, getPath, getProp, readObj, setProp, setAt, writeObj,
          truthy_ref, truthy_undef, truthy_null, truthy_str, truthy_num,
          truthy_bool, alloc, jsThrow, setFieldList, strictEq_str, any_eq_mem,
          getPathS, getFieldS, hm, hmem]

/-- Claim C8, witness: the theorem at the command message
`command_flashlight` (flag becomes false, fields reflected). -/
theorem claim_C8_witness :
    (finalFlag (androidV1.createPayload androidMsgReq) (androidMsgStore "command_flashlight")
        = some (decide ("command_flashlight" ∉ androidV1.androidMessagesToIgnore)))
  ∧ finalPath (androidV1.createPayload androidMsgReq) (androidMsgStore "command_flashlight")
        ["data", "message"] = some (JsVal.str "command_flashlight")
  ∧ finalPath (androidV1.createPayload androidMsgReq) (androidMsgStore "command_flashlight")
        ["data", "title"] = some (JsVal.str "Example Title")
  ∧ finalPath (androidV1.createPayload androidMsgReq) (androidMsgStore "command_flashlight")
        ["data", "webhook_id"] = some (JsVal.str "webhook-1") := by
  have h := claim_C8 "command_flashlight"
  exact ⟨h.1, h.2.1 (by decide), h.2.2.1, h.2.2.2⟩

/-! ## Claim C9 -/

set_option maxHeartbeats 16000000 in
/-- Sound-object normalization of ios-v1 `createPayload`, symbolically over the
volume and critical values `v`, `c`: each field is coerced (`parseFloat` /
`parseInt`) only when its current value is truthy, and the returned
`updateRateLimits` flag is false exactly when the post-coercion critical is
truthy and the post-coercion volume is `> 0` under JS numeric comparison. -/
theorem iosObjSound (v c : JsVal) :
    getFieldS (storeAfter (iosV1.createPayload soundObjReq) (soundObjStore v c))
        2 "volume"
      = some (if truthy v then JsVal.num (parseFloatVal v) else v)
    ∧ getFieldS (storeAfter (iosV1.createPayload soundObjReq) (soundObjStore v c))
        2 "critical"
      = some (if truthy c then JsVal.num (parseIntVal c) else c)
    ∧ finalFlag (iosV1.createPayload soundObjReq) (soundObjStore v c)
      = some (!(truthy (if truthy c then JsVal.num (parseIntVal c) else c)
          && (numberVal (if truthy v then JsVal.num (parseFloatVal v) else v)).gtZero)) := by
  simp only [storeAfter, finalFlag]
  rw [iosSoundObjRun]
  by_cases hv : truthy v = true <;> by_cases hc : truthy c = true
  · simp [iosV1.finishPayload, iosSoundObjMid, soundObjStore, getFieldS, run_bind,
      run_pure, getPath, getProp, readObj, setProp, delProp, delAt, setAt, writeObj,
      truthy_ref, truthy_undef, truthy_null, truthy_str, truthy_num, truthy_bool,
      typeofStr_ref, typeofStr_str, alloc, jsThrow, setFieldList, hv, hc]
    by_cases hcond : ((parseIntVal c).truthy = true
        ∧ (numberVal (JsVal.num (parseFloatVal v))).gtZero = true) <;>
    simp [run_bind, run_pure, getPath, getProp, readObj, setProp, delAt, setAt,
      delProp, writeObj, getFieldS, setFieldList, jsThrow, truthy_ref, truthy_undef,
      truthy_null, truthy_str, truthy_num, truthy_bool, typeofStr_ref, typeofStr_str,
      hv, hc, hcond] <;>
    simp only [not_and_or, Bool.not_eq_true] at hcond <;> exact hcond
  · simp [iosV1.finishPayload, iosSoundObjMid, soundObjStore, getFieldS, run_bind,
      run_pure, getPath, getProp, readObj, setProp, delProp, delAt, setAt, writeObj,
      truthy_ref, truthy_undef, truthy_null, truthy_str, truthy_num, truthy_bool,
      typeofStr_ref, typeofStr_str, alloc, jsThrow, setFieldList, hv, hc]
  · simp [iosV1.finishPayload, iosSoundObjMid, soundObjStore, getFieldS, run_bind,
      run_pure, getPath, getProp, readObj, setProp, delProp, delAt, setAt, writeObj,
      truthy_ref, truthy_undef, truthy_null, truthy_str, truthy_num, truthy_bool,
      typeofStr_ref, typeofStr_str, alloc, jsThrow, setFieldList, hv, hc]
    by_cases hcond : ((parseIntVal c).truthy = true ∧ (numberVal v).gtZero = true) <;>
    simp [run_bind, run_pure, getPath, getProp, readObj, setProp, delAt, setAt,
      delProp, writeObj, getFieldS, setFieldList, jsThrow, truthy_ref, truthy_undef,
      truthy_null, truthy_str, truthy_num, truthy_bool, typeofStr_ref, typeofStr_str,
      hv, hc, hcond] <;>
    simp only [not_and_or, Bool.not_eq_true] at hcond <;> exact hcond
  · simp [iosV1.finishPayload, iosSoundObjMid, soundObjStore, getFieldS, run_bind,
      run_pure, getPath, getProp, readObj, setProp, delProp, delAt, setAt, writeObj,
      truthy_ref, truthy_undef, truthy_null, truthy_str, truthy_num, truthy_bool,
      typeofStr_ref, typeofStr_str, alloc, jsThrow, setFieldList, hv, hc]

set_option maxHeartbeats 16000000 in
/-- Sound-object normalization of the legacy `createPayload`, identical in
shape to `iosObjSound`. -/
theorem legacyObjSound (v c : JsVal) :
    getFieldS (storeAfter (legacy.createPayload soundObjReq) (soundObjStore v c))
        2 "volume"
      = some (if truthy v then JsVal.num (parseFloatVal v) else v)
    ∧ getFieldS (storeAfter (legacy.createPayload soundObjReq) (soundObjStore v c))
        2 "critical"
      = some (if truthy c then JsVal.num (parseIntVal c) else c)
    ∧ finalFlag (legacy.createPayload soundObjReq) (soundObjStore v c)
      = some (!(truthy (if truthy c then JsVal.num (parseIntVal c) else c)
          && (numberVal (if truthy v then JsVal.num (parseFloatVal v) else v)).gtZero)) := by
  simp only [storeAfter, finalFlag]
  rw [legacySoundObjRun]
  by_cases hv : truthy v = true <;> by_cases hc : truthy c = true
  · simp [legacy.finishPayload, legacySoundObjMid, soundObjStore, getFieldS, run_bind,
      run_pure, getPath, getProp, readObj, setProp, delProp, delAt, setAt, writeObj,
      truthy_ref, truthy_undef, truthy_null, truthy_str, truthy_num, truthy_bool,
      typeofStr_ref, typeofStr_str, alloc, jsThrow, setFieldList, hv, hc]
    by_cases hcond : ((parseIntVal c).truthy = true
        ∧ (numberVal (JsVal.num (parseFloatVal v))).gtZero = true) <;>
    simp [run_bind, run_pure, getPath, getProp, readObj, setProp, delAt, setAt,
      delProp, writeObj, getFieldS, setFieldList, jsThrow, truthy_ref, truthy_undef,
      truthy_null, truthy_str, truthy_num, truthy_bool, typeofStr_ref, typeofStr_str,
      hv, hc, hcond] <;>
    simp only [not_and_or, Bool.not_eq_true] at hcond <;> exact hcond
  · simp [legacy.finishPayload, legacySoundObjMid, soundObjStore, getFieldS, run_bind,
      run_pure, getPath, getProp, readObj, setProp, delProp, delAt, setAt, writeObj,
      truthy_ref, truthy_undef, truthy_null, truthy_str, truthy_num, truthy_bool,
      typeofStr_ref, typeofStr_str, alloc, jsThrow, setFieldList, hv, hc]
  · simp [legacy.finishPayload, legacySoundObjMid, soundObjStore, getFieldS, run_bind,
      run_pure, getPath, getProp, readObj, setProp, delProp, delAt, setAt, writeObj,
      truthy_ref, truthy_undef, truthy_null, truthy_str, truthy_num, truthy_bool,
      typeofStr_ref, typeofStr_str, alloc, jsThrow, setFieldList, hv, hc]
    by_cases hcond : ((parseIntVal c).truthy = true ∧ (numberVal v).gtZero = true) <;>
    simp [run_bind, run_pure, getPath, getProp, readObj, setProp, delAt, setAt,
      delProp, writeObj, getFieldS, setFieldList, jsThrow, truthy_ref, truthy_undef,
      truthy_null, truthy_str, truthy_num, truthy_bool, typeofStr_ref, typeofStr_str,
      hv, hc, hcond] <;>
    simp only [not_and_or, Bool.not_eq_true] at hcond <;> exact hcond
  · simp [legacy.finishPayload, legacySoundObjMid, soundObjStore, getFieldS, run_bind,
      run_pure, getPath, getProp, readObj, setProp, delProp, delAt, setAt, writeObj,
      truthy_ref, truthy_undef, truthy_null, truthy_str, truthy_num, truthy_bool,
      typeofStr_ref, typeofStr_str, alloc, jsThrow, setFieldList, hv, hc]

/-- String sound equal to "none" up to ASCII case: the ios-v1 transformer
deletes `aps.sound` (cell 2 of the fixture is the aps object). -/
theorem soundNoneIos (s : String) (h : toLowerStr s = "none") :
    getFieldS (storeAfter (iosV1.createPayload soundReq) (soundStore (JsVal.str s)))
      2 "sound" = none := by
  have hs : s ≠ "" := by
    intro he; subst he; simp [toLowerStr] at h
  simp only [storeAfter]
  rw [iosSoundRun]
  simp [iosV1.finishPayload, iosSoundMid, soundStore, getFieldS, run_bind, run_pure,
    getPath, getProp, readObj, setProp, delProp, delAt, setAt, writeObj, truthy_ref,
    truthy_undef, truthy_null, truthy_str, truthy_num, truthy_bool, typeofStr_ref,
    typeofStr_str, alloc, jsThrow, setFieldList, h, hs]

/-- String sound equal to "none" up to ASCII case: the legacy transformer also
deletes `aps.sound`. -/
theorem soundNoneLegacy (s : String) (h : toLowerStr s = "none") :
    getFieldS (storeAfter (legacy.createPayload soundReq) (soundStore (JsVal.str s)))
      2 "sound" = none := by
  have hs : s ≠ "" := by
    intro he; subst he; simp [toLowerStr] at h
  simp only [storeAfter]
  rw [legacySoundRun]
  simp [legacy.finishPayload, legacySoundMid, soundStore, getFieldS, run_bind, run_pure,
    getPath, getProp, readObj, setProp, delProp, delAt, setAt, writeObj, truthy_ref,
    truthy_undef, truthy_null, truthy_str, truthy_num, truthy_bool, typeofStr_ref,
    typeofStr_str, alloc, jsThrow, setFieldList, h, hs]

/-- `parseInt("0")` is `0`, which is falsy. -/
theorem parseIntZeroStr : (parseIntVal (JsVal.str "0")).truthy = false := by
  simp [parseIntVal, parseIntStr, dropWs, takeSign, takeDigits, digitsVal,
    JsNum.truthy, String.toList]

/-- `parseFloat("1")` is `1`, which compares `> 0`. -/
theorem parseFloatOneStr :
    (numberVal (JsVal.num (parseFloatVal (JsVal.str "1")))).gtZero = true := by
  simp [parseFloatVal, parseFloatStr, dropWs, takeSign, takeDigits, digitsVal,
    numberVal, JsNum.gtZero, String.toList]

/-- Claim C9, counterexample: with `aps.sound = {volume: "1", critical: "0"}`,
the input critical `"0"` is truthy (a non-empty string) and the coerced volume
`parseFloat("1") = 1` is `> 0`, yet ios-v1 `createPayload` returns
`updateRateLimits = true`: the rate-limit test uses the POST-coercion critical
`parseInt("0") = 0`, which is falsy, so the claim's "whenever critical is
truthy and volume > 0 the returned updateRateLimits is false" fails on the
request's own field values. -/
theorem claim_C9_counterexample :
    truthy (JsVal.str "0") = true
    ∧ (numberVal (JsVal.num (parseFloatVal (JsVal.str "1")))).gtZero = true
    ∧ finalFlag (iosV1.createPayload soundObjReq)
        (soundObjStore (JsVal.str "1") (JsVal.str "0")) = some true := by
  refine ⟨by decide, parseFloatOneStr, ?_⟩
  have h := (iosObjSound (JsVal.str "1") (JsVal.str "0")).2.2
  rw [h]
  simp [truthy_str, truthy_num, parseIntZeroStr]

/-- Claim C9, amended: on the sound fixtures, for both the ios-v1 and the
legacy transformer: (1) a string sound equal to "none" up to case is deleted
from the output `aps`; (2) an object sound has its volume replaced by
`parseFloat(volume)` and its critical by `parseInt(critical)` — but only when
the respective field is truthy; a falsy field is left uncoerced — and the
returned `updateRateLimits` is false exactly when the post-coercion critical
is truthy and the post-coercion volume is `> 0` under JS numeric comparison
(not, as the claim reads, whenever the request's critical is truthy and its
volume positive: see the counterexample). -/
theorem claim_C9_amended :
    (∀ s : String, toLowerStr s = "none" →
      getFieldS (storeAfter (iosV1.createPayload soundReq)
        (soundStore (JsVal.str s))) 2 "sound" = none)
    ∧ (∀ s : String, toLowerStr s = "none" →
      getFieldS (storeAfter (legacy.createPayload soundReq)
        (soundStore (JsVal.str s))) 2 "sound" = none)
    ∧ (∀ v c : JsVal,
      getFieldS (storeAfter (iosV1.createPayload soundObjReq) (soundObjStore v c))
          2 "volume"
        = some (if truthy v then JsVal.num (parseFloatVal v) else v)
      ∧ getFieldS (storeAfter (iosV1.createPayload soundObjReq) (soundObjStore v c))
          2 "critical"
        = some (if truthy c then JsVal.num (parseIntVal c) else c)
      ∧ finalFlag (iosV1.createPayload soundObjReq) (soundObjStore v c)
        = some (!(truthy (if truthy c then JsVal.num (parseIntVal c) else c)
            && (numberVal (if truthy v then JsVal.num (parseFloatVal v) else v)).gtZero)))
    ∧ (∀ v c : JsVal,
      getFieldS (storeAfter (legacy.createPayload soundObjReq) (soundObjStore v c))
          2 "volume"
        = some (if truthy v then JsVal.num (parseFloatVal v) else v)
      ∧ getFieldS (storeAfter (legacy.createPayload soundObjReq) (soundObjStore v c))
          2 "critical"
        = some (if truthy c then JsVal.num (parseIntVal c) else c)
      ∧ finalFlag (legacy.createPayload soundObjReq) (soundObjStore v c)
        = some (!(truthy (if truthy c then JsVal.num (parseIntVal c) else c)
            && (numberVal (if truthy v then JsVal.num (parseFloatVal v) else v)).gtZero))) :=
  ⟨soundNoneIos, soundNoneLegacy, iosObjSound, legacyObjSound⟩

/-- Claim C9, witness: the amended theorem at `sound = "NONE"` (deleted by
both transformers) and at `sound = {volume: "0.5", critical: true}` (the flag
conjunct for both transformers), hypotheses discharged by computation. -/
theorem claim_C9_witness :
    toLowerStr "NONE" = "none"
    ∧ getFieldS (storeAfter (iosV1.createPayload soundReq)
        (soundStore (JsVal.str "NONE"))) 2 "sound" = none
    ∧ getFieldS (storeAfter (legacy.createPayload soundReq)
        (soundStore (JsVal.str "NONE"))) 2 "sound" = none
    ∧ finalFlag (iosV1.createPayload soundObjReq)
        (soundObjStore (JsVal.str "0.5") (JsVal.bool true))
      = some (!(truthy (if truthy (JsVal.bool true)
              then JsVal.num (parseIntVal (JsVal.bool true)) else JsVal.bool true)
          && (numberVal (if truthy (JsVal.str "0.5")
              then JsVal.num (parseFloatVal (JsVal.str "0.5"))
              else JsVal.str "0.5")).gtZero))
    ∧ finalFlag (legacy.createPayload soundObjReq)
        (soundObjStore (JsVal.str "0.5") (JsVal.bool true))
      = some (!(truthy (if truthy (JsVal.bool true)
              then JsVal.num (parseIntVal (JsVal.bool true)) else JsVal.bool true)
          && (numberVal (if truthy (JsVal.str "0.5")
              then JsVal.num (parseFloatVal (JsVal.str "0.5"))
              else JsVal.str "0.5")).gtZero)) :=
  ⟨by decide,
   claim_C9_amended.1 "NONE" (by decide),
   claim_C9_amended.2.1 "NONE" (by decide),
   (claim_C9_amended.2.2.1 (JsVal.str "0.5") (JsVal.bool true)).2.2,
   (claim_C9_amended.2.2.2 (JsVal.str "0.5") (JsVal.bool true)).2.2⟩
